import Mathlib

/-!
Verification of the validation framework of `casestudypilot`
(`src/casestudypilot/validation.py`) against its specification.

Shallow embedding conventions:
* Python strings are modelled as `List Char` (ASCII semantics for
  case folding, word characters and whitespace).
* Python floats are modelled as exact rationals `ℚ`.
* `ValidationCheck.details` (a free-form debug mapping) is not modelled;
  `message` is modelled, with `none` standing for Python `None`.
* The external library `rapidfuzz` (functions `fuzz.ratio` and
  `fuzz.partial_ratio`) is modelled from its documented semantics as
  normalized indel similarity (see `fuzzSim`, `bestAlignSim`).
-/

set_option maxRecDepth 10000

namespace CaseStudyPilot

/-- Severity levels (validation.py, `class Severity`). -/
inductive Severity where
  | CRITICAL
  | WARNING
  | INFO
  | PASS
deriving DecidableEq, Inhabited

/-- An individual validation check (validation.py, `ValidationCheck`).
The free-form `details` debug mapping is not modelled. -/
structure ValidationCheck where
  name : String
  passed : Bool
  severity : Severity
  message : Option (List Char)
deriving DecidableEq, Inhabited

/-- Aggregated validation result (validation.py, `ValidationResult`). -/
structure ValidationResult where
  status : Severity
  checks : List ValidationCheck
deriving DecidableEq

/-- Method `ValidationResult.is_critical`. -/
def ValidationResult.is_critical (r : ValidationResult) : Bool :=
  decide (r.status = Severity.CRITICAL)

/-- Method `ValidationResult.has_warnings`: any check with WARNING severity. -/
def ValidationResult.has_warnings (r : ValidationResult) : Bool :=
  r.checks.any (fun c => decide (c.severity = Severity.WARNING))

/-- Method `ValidationResult.get_failed_checks`. -/
def ValidationResult.get_failed_checks (r : ValidationResult) : List ValidationCheck :=
  r.checks.filter (fun c => !c.passed)

/-- The status-determination loop used (with a `break` on the first failed
CRITICAL check) at the end of most validators in validation.py. -/
def aggLoop : List ValidationCheck → Severity → Severity
  | [], status => status
  | c :: rest, status =>
    if c.passed = false then
      if c.severity = Severity.CRITICAL then Severity.CRITICAL
      else if c.severity = Severity.WARNING ∧ status = Severity.PASS then
        aggLoop rest Severity.WARNING
      else aggLoop rest status
    else aggLoop rest status

/-- The status-determination loop of `validate_company_name`, which does not
break out of the loop on a failed CRITICAL check. -/
def aggNB : List ValidationCheck → Severity → Severity
  | [], status => status
  | c :: rest, status =>
    if c.passed = false ∧ c.severity = Severity.CRITICAL ∧ status ≠ Severity.CRITICAL then
      aggNB rest Severity.CRITICAL
    else if c.passed = false ∧ c.severity = Severity.WARNING ∧ status = Severity.PASS then
      aggNB rest Severity.WARNING
    else aggNB rest status

/-- Whether some check in the list failed at the given severity. -/
def hasFailed (s : Severity) (cs : List ValidationCheck) : Bool :=
  cs.any (fun c => decide (c.passed = false ∧ c.severity = s))

/-- Status an escalation-correct aggregation must produce for a check list. -/
def specStatus (cs : List ValidationCheck) : Severity :=
  if hasFailed Severity.CRITICAL cs then Severity.CRITICAL
  else if hasFailed Severity.WARNING cs then Severity.WARNING
  else Severity.PASS

/-- The escalation invariant of the spec, as a predicate on a result:
status is CRITICAL iff some check failed at CRITICAL, else WARNING iff some
check failed at WARNING, else PASS. -/
def EscalationSpec (r : ValidationResult) : Prop :=
  (r.status = Severity.CRITICAL ↔
    ∃ c ∈ r.checks, c.passed = false ∧ c.severity = Severity.CRITICAL) ∧
  (r.status = Severity.WARNING ↔
    (¬ (∃ c ∈ r.checks, c.passed = false ∧ c.severity = Severity.CRITICAL) ∧
      ∃ c ∈ r.checks, c.passed = false ∧ c.severity = Severity.WARNING)) ∧
  (r.status = Severity.PASS ↔
    (¬ (∃ c ∈ r.checks, c.passed = false ∧ c.severity = Severity.CRITICAL) ∧
      ¬ (∃ c ∈ r.checks, c.passed = false ∧ c.severity = Severity.WARNING)))

/-- Shorthand for string literals as character lists. -/
def sl (s : String) : List Char := s.toList

/-- The single-quote character, used by Python string interpolation of names. -/
def sq : Char := Char.ofNat 39

/-- ASCII lowercase fold, modelling Python `str.lower` on the ASCII data used here. -/
def lowChar (c : Char) : Char :=
  if 'A' ≤ c ∧ c ≤ 'Z' then Char.ofNat (c.toNat + 32) else c

/-- Python `s.lower()`. -/
def pyLower (s : List Char) : List Char := s.map lowChar

/-- Python str whitespace (ASCII range). -/
def isWS (c : Char) : Bool :=
  decide (c = ' ' ∨ c = '\t' ∨ c = '\n' ∨ c = '\r' ∨ c = '\x0b' ∨ c = '\x0c')

/-- Worker for `pyWords`, accumulating the current word reversed. -/
def pySplit : List Char → List Char → List (List Char)
  | [], acc => if acc.isEmpty then [] else [acc.reverse]
  | c :: rest, acc =>
    if isWS c then
      if acc.isEmpty then pySplit rest [] else acc.reverse :: pySplit rest []
    else pySplit rest (c :: acc)

/-- Python `s.split()` with no arguments: split on whitespace runs, dropping empties. -/
def pyWords (s : List Char) : List (List Char) := pySplit s []

/-- Python `s.strip()`: remove leading and trailing whitespace. -/
def pyStrip (s : List Char) : List Char :=
  ((s.dropWhile isWS).reverse.dropWhile isWS).reverse

/-- Whether `p` occurs at the head of `t`. -/
def headMatch : List Char → List Char → Bool
  | _, [] => true
  | [], _ :: _ => false
  | t :: ts, p :: ps => decide (t = p) && headMatch ts ps

/-- Python substring membership `p in t`. -/
def pyIn (p : List Char) : List Char → Bool
  | [] => headMatch [] p
  | c :: ts => headMatch (c :: ts) p || pyIn p ts

/-- Decimal rendering of a natural number, as Python `str` of an int. -/
def natStr (n : Nat) : List Char := Nat.toDigits 10 n

/-- Models Python float formatting with two fractional digits (`:.2f`),
rendering the rational rounded half up; used only inside messages. -/
def fmtQ2 (q : ℚ) : List Char :=
  let m : ℤ := ⌊q * 100 + 1 / 2⌋
  let sign : List Char := if m < 0 then ['-'] else []
  let a : Nat := m.natAbs
  sign ++ natStr (a / 100) ++ '.' ::
    (if a % 100 < 10 then '0' :: natStr (a % 100) else natStr (a % 100))

/-- Models Python percent formatting with no fractional digits (`:.0%`),
rounding half up; used only inside messages. -/
def fmtPct (q : ℚ) : List Char := natStr (⌊q * 100 + 1 / 2⌋).natAbs ++ ['%']

/-- A transcript segment; `validate_transcript` only ever uses the count of
segments, their timing payload is carried opaquely. -/
structure Segment where
  start : ℚ
  duration : ℚ
deriving DecidableEq

/-- Transcript validator (validation.py, `validate_transcript`). -/
def validate_transcript (transcript : List Char) (segments : List Segment) : ValidationResult :=
  let transcript_length := if transcript.isEmpty then 0 else transcript.length
  let word_count := if transcript.isEmpty then 0 else (pyWords transcript).length
  let segment_count := if segments.isEmpty then 0 else segments.length
  let checks : List ValidationCheck :=
    { name := (r"transcript_exists"),
      passed := !transcript.isEmpty,
      severity := Severity.CRITICAL,
      message := if transcript.isEmpty then some (sl (r"Transcript is empty or None")) else none } ::
    { name := (r"minimum_length"),
      passed := decide (1000 ≤ transcript_length),
      severity := Severity.CRITICAL,
      message := if transcript_length < 1000 then
          some (sl (r"Transcript too short: ") ++ natStr transcript_length ++
            sl (r" chars (minimum: 1000)"))
        else none } ::
    { name := (r"meaningful_content"),
      passed := decide (100 ≤ word_count),
      severity := Severity.CRITICAL,
      message := if word_count < 100 then
          some (sl (r"Transcript lacks meaningful content: only ") ++ natStr word_count ++
            sl (r" words"))
        else none } ::
    { name := (r"sufficient_segments"),
      passed := decide (50 ≤ segment_count),
      severity := Severity.CRITICAL,
      message := if segment_count < 50 then
          some (sl (r"Too few transcript segments: ") ++ natStr segment_count ++
            sl (r" (minimum: 50)"))
        else none } ::
    (if ¬transcript.isEmpty ∧ transcript.length < 5000 then
      [{ name := (r"short_transcript"),
         passed := false,
         severity := Severity.WARNING,
         message := some (sl (r"Short transcript (") ++ natStr transcript.length ++
           sl (r" chars). Generated case study may lack detail.")) }]
    else [])
  { status := aggLoop checks Severity.PASS, checks := checks }

/-- The fixed placeholder set of `validate_company_name`. -/
def generic_names : List (List Char) :=
  [sl (r"company"), sl (r"organization"), sl (r"tech"), sl (r"unknown"),
   sl (r"tbd"), sl (r"n/a"), sl (r"none")]

/-- Company-name validator (validation.py, `validate_company_name`); the float
thresholds 0.5 and 0.7 of the source are the exact rationals mkRat 1 2 and
mkRat 7 10. -/
def validate_company_name (company_name : List Char) (video_title : List Char)
    (confidence : ℚ) : ValidationResult :=
  let is_generic := if company_name.isEmpty then true
    else generic_names.any (fun g => decide (g = pyStrip (pyLower company_name)))
  let name_length := if company_name.isEmpty then 0 else company_name.length
  let sev4 := if confidence < mkRat 1 2 then Severity.CRITICAL
    else if confidence < mkRat 7 10 then Severity.WARNING
    else Severity.INFO
  let checks : List ValidationCheck :=
    [ { name := (r"company_exists"),
        passed := decide (¬company_name.isEmpty ∧ ¬(pyStrip company_name).isEmpty),
        severity := Severity.CRITICAL,
        message := if company_name.isEmpty then some (sl (r"No company name provided")) else none },
      { name := (r"not_generic"),
        passed := !is_generic,
        severity := Severity.CRITICAL,
        message := if is_generic then
            some (sl (r"Company name is generic placeholder: ") ++ sq :: company_name ++ [sq])
          else none },
      { name := (r"minimum_length"),
        passed := decide (2 ≤ name_length),
        severity := Severity.CRITICAL,
        message := if name_length < 2 then
            some (sl (r"Company name too short: ") ++ sq :: company_name ++ [sq] ++
              sl (r" (") ++ natStr name_length ++ sl (r" chars)"))
          else none },
      { name := (r"confidence_threshold"),
        passed := decide (mkRat 7 10 ≤ confidence),
        severity := sev4,
        message := if confidence < mkRat 7 10 then
            some (sl (r"Low confidence in company extraction: ") ++ fmtQ2 confidence)
          else none } ]
  { status := aggNB checks Severity.PASS, checks := checks }

/-- Python regex word character `\w` in the ASCII range: letters, digits, underscore. -/
def isWordChar (c : Char) : Bool :=
  decide (('a' ≤ c ∧ c ≤ 'z') ∨ ('A' ≤ c ∧ c ≤ 'Z') ∨ ('0' ≤ c ∧ c ≤ '9') ∨ c = '_')

/-- Whether a regex word boundary `\b` sits between two adjacent characters
(`none` standing for the edge of the string). -/
def boundaryAt (prev next : Option Char) : Bool :=
  match prev, next with
  | none, none => false
  | none, some c => isWordChar c
  | some c, none => isWordChar c
  | some a, some b => xor (isWordChar a) (isWordChar b)

/-- Whether the escaped literal `p` matches at position `i` of `t` with word
boundaries on both sides, modelling the regex `\b p \b`. -/
def wbMatchAt (t p : List Char) (i : Nat) : Bool :=
  headMatch (t.drop i) p &&
  boundaryAt ((t.take i).getLast?) p.head? &&
  boundaryAt p.getLast? ((t.drop (i + p.length)).head?)

/-- Left-to-right, non-overlapping scan counting `\b p \b` matches, modelling
`re.findall`; continues after the end of each match. -/
def wbScan (t p : List Char) : Nat → Nat → Nat
  | 0, _ => 0
  | Nat.succ fuel, i =>
    if t.length < i then 0
    else if wbMatchAt t p i then 1 + wbScan t p fuel (i + p.length)
    else wbScan t p fuel (i + 1)

/-- Number of `re.findall` matches of the word-boundary-wrapped literal `p` in `t`. -/
def wbCount (t p : List Char) : Nat := wbScan t p (t.length + 1) 0

/-- Whether `re.search` finds a `\b p \b` match in `t`. -/
def wbHas (t p : List Char) : Bool := decide (wbCount t p ≠ 0)

/-- Python `" ".join(...)` over the values of the generated-sections mapping. -/
def joinSp (l : List (List Char)) : List Char := List.intercalate [' '] l

/-- Python `repr` of a list of strings, as interpolated into f-strings. -/
def reprStrList (l : List (List Char)) : List Char :=
  '[' :: (List.intercalate (sl (r", ")) (l.map (fun s => sq :: s ++ [sq]))) ++ [']']

/-- The fixed allow-list of well-known companies in `validate_company_consistency`. -/
def known_companies : List (List Char) :=
  [sl (r"Spotify"), sl (r"Netflix"), sl (r"Uber"), sl (r"Airbnb"), sl (r"Adobe"),
   sl (r"Apple"), sl (r"Google"), sl (r"Microsoft"), sl (r"Amazon"), sl (r"Facebook"),
   sl (r"Meta"), sl (r"Twitter"), sl (r"LinkedIn"), sl (r"Slack"), sl (r"Dropbox"),
   sl (r"GitHub"), sl (r"GitLab"), sl (r"Atlassian"), sl (r"Salesforce"), sl (r"Oracle"),
   sl (r"IBM"), sl (r"Red Hat"), sl (r"Intel"), sl (r"Nvidia"), sl (r"Tesla"),
   sl (r"Intuit"), sl (r"PayPal"), sl (r"eBay"), sl (r"Etsy"), sl (r"Lyft"),
   sl (r"DoorDash"), sl (r"Stripe"), sl (r"Square"), sl (r"Shopify")]

/-- The known companies other than the expected one that are word-boundary
mentioned in the lowercased generated text (validation.py lines 649 to 656). -/
def otherCompanies (expected text : List Char) : List (List Char) :=
  known_companies.filter
    (fun company =>
      decide (¬(pyLower company = pyLower expected)) && wbHas (pyLower text) (pyLower company))

/-- The per-company word-boundary mention counts (validation.py lines 660 to 663). -/
def mentionCounts (expected text : List Char) : List (List Char × Nat) :=
  (otherCompanies expected text).map (fun c => (c, wbCount (pyLower text) (pyLower c)))

/-- Maximum of a list of counts, 0 when empty, as `max(...) if ... else 0`. -/
def listMax (l : List Nat) : Nat := l.foldr max 0

/-- The count of the most-mentioned other known company (validation.py line 665). -/
def mostMentioned (expected text : List Char) : Nat :=
  listMax ((mentionCounts expected text).map (fun x => x.2))

/-- Word-boundary count of the expected company itself (validation.py lines 667 to 668). -/
def expectedMentions (expected text : List Char) : Nat :=
  wbCount (pyLower text) (pyLower expected)

/-- Python `max(items, key=...)[0]`: first item with the maximum count. -/
def argmaxFirst : List (List Char × Nat) → (List Char × Nat) → (List Char × Nat)
  | [], best => best
  | x :: rest, best => argmaxFirst rest (if best.2 < x.2 then x else best)

/-- The company reported in the mismatch message (validation.py line 672). -/
def topCompany (expected text : List Char) : List Char :=
  match mentionCounts expected text with
  | [] => []
  | x :: rest => (argmaxFirst rest x).1

/-- Company-consistency validator (validation.py, `validate_company_consistency`).
The `generated_sections` mapping is modelled by its list of values in insertion
order; the `video_data` parameter of the source is never used and is omitted. -/
def validate_company_consistency (expected_company : List Char)
    (generated_sections : List (List Char)) : ValidationResult :=
  let all_generated_text := joinSp generated_sections
  let expected_mentioned := pyIn (pyLower expected_company) (pyLower all_generated_text)
  let check1 : ValidationCheck :=
    { name := (r"expected_company_mentioned"),
      passed := expected_mentioned,
      severity := Severity.CRITICAL,
      message := if expected_mentioned = false then
          some (sl (r"Expected company ") ++ sq :: expected_company ++ [sq] ++
            sl (r" not mentioned in generated case study!"))
        else none }
  let checks : List ValidationCheck :=
    check1 ::
    (if (otherCompanies expected_company all_generated_text).isEmpty = false then
      (if expectedMentions expected_company all_generated_text <
          mostMentioned expected_company all_generated_text then
        [{ name := (r"company_mismatch"),
           passed := false,
           severity := Severity.CRITICAL,
           message := some (sl (r"Company mismatch! Expected ") ++
             sq :: expected_company ++ [sq] ++ sl (r" (") ++
             natStr (expectedMentions expected_company all_generated_text) ++
             sl (r" mentions) but case study appears to be about ") ++
             sq :: topCompany expected_company all_generated_text ++ [sq] ++ sl (r" (") ++
             natStr (mostMentioned expected_company all_generated_text) ++
             sl (r" mentions). STOPPING to prevent incorrect attribution.")) }]
      else
        [{ name := (r"other_companies_mentioned"),
           passed := false,
           severity := Severity.WARNING,
           message := some (sl (r"Other companies mentioned: ") ++
             reprStrList ((mentionCounts expected_company all_generated_text).map (fun x => x.1)) ++
             sl (r". Verify they are partners/competitors, not primary subject.")) }])
    else [])
  { status := aggLoop checks Severity.PASS, checks := checks }

/-- One dynamic-programming row update for the longest common subsequence
table: walks the remaining second string together with the previous row
(starting at the diagonal entry) and the entry to the left. -/
def lcsRowAux (c : Char) : List Char → List Nat → Nat → List Nat
  | [], _, _ => []
  | b :: bs, prevTail, left =>
    let v := if c = b then prevTail.headD 0 + 1
      else max left ((prevTail.drop 1).headD 0)
    v :: lcsRowAux c bs (prevTail.drop 1) v

/-- The row of the LCS table after consuming one further character of the
first string. -/
def lcsStep (c : Char) (b : List Char) (prev : List Nat) : List Nat :=
  0 :: lcsRowAux c b prev 0

/-- Length of the longest common subsequence of two character lists. -/
def lcsLen (a b : List Char) : Nat :=
  (a.foldl (fun prev c => lcsStep c b prev) (List.replicate (b.length + 1) 0)).getLastD 0

/-- Models rapidfuzz `fuzz.ratio`: the normalized indel similarity as a
percentage, 200 * LCS / (len1 + len2), as an exact rational; 100 when both
strings are empty. -/
def fuzzSim (a b : List Char) : ℚ :=
  if a.length + b.length = 0 then 100
  else mkRat (200 * lcsLen a b) (a.length + b.length)

/-- The candidate windows of the longer string that rapidfuzz
`fuzz.partial_ratio` aligns the shorter string against: every contiguous
window of the needle's length, plus the clipped windows at both edges. -/
def winList (t : List Char) (n : Nat) : List (List Char) :=
  ((List.range (t.length + 1)).map (fun i => (t.drop i).take n)) ++
    ((List.range (n + 1)).map (fun k => t.take k))

/-- Python `max` on two rationals. -/
def qmax (a b : ℚ) : ℚ := if a ≤ b then b else a

/-- Models rapidfuzz `fuzz.partial_ratio`: the best `fuzz.ratio` of the
shorter input against the windows of the longer one. -/
def bestAlignSim (a b : List Char) : ℚ :=
  let s := if a.length ≤ b.length then a else b
  let l := if a.length ≤ b.length then b else a
  ((winList l s.length).map (fun w => fuzzSim s w)).foldr qmax 0

/-- ASCII digit, the regex `\d` on the data used here. -/
def isDigit (c : Char) : Bool := decide ('0' ≤ c ∧ c ≤ '9')

/-- Case-insensitive prefix match of the text against a lowercase literal. -/
def matchCI : List Char → List Char → Bool
  | _, [] => true
  | [], _ :: _ => false
  | t :: ts, p :: ps => decide (lowChar t = p) && matchCI ts ps

/-- The unit alternatives of the counted-unit metric pattern, in source order. -/
def unitBases : List (List Char) :=
  [sl (r"pod"), sl (r"service"), sl (r"node"), sl (r"cluster"),
   sl (r"user"), sl (r"request"), sl (r"microservice")]

/-- The unit alternatives of the duration metric pattern, in source order. -/
def durBases : List (List Char) :=
  [sl (r"hour"), sl (r"minute"), sl (r"second"), sl (r"day"),
   sl (r"week"), sl (r"month")]

/-- Regex alternation over unit bases each with a greedy optional trailing s,
case-insensitively; returns the matched length at the head of the text. -/
def tryUnit (bases : List (List Char)) (t : List Char) : Option Nat :=
  match bases with
  | [] => none
  | b :: rest =>
    if matchCI t b then
      some (b.length +
        (match (t.drop b.length).head? with
         | some c => if lowChar c = 's' then 1 else 0
         | none => 0))
    else tryUnit rest t

/-- Scanner for the percentage pattern `\d+%`, modelling `re.findall`. -/
def scanPct : Nat → List Char → List (List Char)
  | 0, _ => []
  | _ + 1, [] => []
  | fuel + 1, c :: rest =>
    if isDigit c then
      let run := (c :: rest).takeWhile isDigit
      match (c :: rest).drop run.length with
      | '%' :: tail => (run ++ ['%']) :: scanPct fuel tail
      | _ => scanPct fuel rest
    else scanPct fuel rest

/-- Scanner for the multiplier pattern `\d+x` with IGNORECASE. -/
def scanX : Nat → List Char → List (List Char)
  | 0, _ => []
  | _ + 1, [] => []
  | fuel + 1, c :: rest =>
    if isDigit c then
      let run := (c :: rest).takeWhile isDigit
      match (c :: rest).drop run.length with
      | c2 :: tail =>
        if lowChar c2 = 'x' then (run ++ [c2]) :: scanX fuel tail
        else scanX fuel rest
      | [] => scanX fuel rest
    else scanX fuel rest

/-- Scanner for the counted-unit patterns `\d+[,\d]*\s+(unit)` and
`\d+\s+(unit)`; `withCommas` selects whether the `[,\d]*` part is present. -/
def scanCU (bases : List (List Char)) (withCommas : Bool) : Nat → List Char → List (List Char)
  | 0, _ => []
  | _ + 1, [] => []
  | fuel + 1, c :: rest =>
    if isDigit c then
      let run := (c :: rest).takeWhile
        (fun ch => isDigit ch || (withCommas && decide (ch = ',')))
      let after := (c :: rest).drop run.length
      let ws := after.takeWhile isWS
      if ws.isEmpty then scanCU bases withCommas fuel rest
      else
        let after2 := after.drop ws.length
        match tryUnit bases after2 with
        | some n => (run ++ ws ++ after2.take n) :: scanCU bases withCommas fuel (after2.drop n)
        | none => scanCU bases withCommas fuel rest
    else scanCU bases withCommas fuel rest

/-- Scanner for the currency pattern `\$\d+[,\d]*`. -/
def scanMoney : Nat → List Char → List (List Char)
  | 0, _ => []
  | _ + 1, [] => []
  | fuel + 1, c :: rest =>
    if c = '$' then
      match rest.head? with
      | some d =>
        if isDigit d then
          let run := rest.takeWhile (fun ch => isDigit ch || decide (ch = ','))
          ('$' :: run) :: scanMoney fuel (rest.drop run.length)
        else scanMoney fuel rest
      | none => []
    else scanMoney fuel rest

/-- All candidate metrics found in the generated text, in the source's
pattern order (validation.py lines 367 to 377). -/
def foundMetrics (text : List Char) : List (List Char) :=
  scanPct (text.length + 1) text ++ scanX (text.length + 1) text ++
  scanCU unitBases true (text.length + 1) text ++
  scanCU durBases false (text.length + 1) text ++
  scanMoney (text.length + 1) text

/-- Metric normalization: strip commas and the currency symbol
(validation.py line 386). -/
def normMetric (m : List Char) : List Char :=
  m.filter (fun c => decide (¬(c = ',' ∨ c = '$')))

/-- The fabricated metrics: candidates that are neither exact substrings of
the transcript nor fuzzy-matched (similarity strictly above 85) by some
whitespace chunk of it (validation.py lines 380 to 390). -/
def fabricatedMetrics (generated_sections : List (List Char)) (transcript : List Char) :
    List (List Char) :=
  (foundMetrics (joinSp generated_sections)).filter (fun metric =>
    !(pyIn metric transcript) &&
    !((pyWords transcript).any (fun chunk =>
        decide (mkRat 85 1 < bestAlignSim (normMetric metric) chunk))))

/-- The warning message of `validate_metrics`: the first five fabricated
metrics, with an and-N-more suffix when more than five exist. -/
def metricsMsg (fab : List (List Char)) : List Char :=
  sl (r"Found ") ++ natStr fab.length ++
  sl (r" metric(s) in case study that don") ++ sq ::
  sl (r"t appear in transcript: ") ++ reprStrList (fab.take 5) ++
  (if 0 < fab.length - 5 then
    sl (r" (and ") ++ natStr (fab.length - 5) ++ sl (r" more)")
  else []) ++
  sl (r". Review for accuracy.")

/-- Metric-fabrication validator (validation.py, `validate_metrics`).
The generated-sections mapping is modelled by its list of values in insertion
order; the `analysis` parameter of the source is never used and is omitted. -/
def validate_metrics (generated_sections : List (List Char))
    (original_transcript : List Char) : ValidationResult :=
  let fabricated := fabricatedMetrics generated_sections original_transcript
  let checks : List ValidationCheck :=
    if fabricated.isEmpty = false then
      [{ name := (r"metrics_in_transcript"),
         passed := false,
         severity := Severity.WARNING,
         message := some (metricsMsg fabricated) }]
    else
      [{ name := (r"metrics_in_transcript"),
         passed := true,
         severity := Severity.INFO,
         message := some (sl (r"All metrics verified against transcript")) }]
  { status := if fabricated.isEmpty = false then Severity.WARNING else Severity.PASS,
    checks := checks }

/-- Concrete generated section value whose only candidate metric has exact
similarity 85 against the only transcript chunk. -/
def simBoundaryGen : List Char := sl (r"111111111111111 pods")

/-- Concrete transcript for the similarity-85 boundary: thirteen ones, three
letters, then pods; a single whitespace chunk. -/
def simBoundaryTr : List Char := sl (r"1111111111111XXXpods")

/-- Concrete generated text mentioning Intuit once and Spotify five times. -/
def mismatchDemoText : List Char :=
  sl (r"Intuit uses Spotify Spotify Spotify Spotify Spotify")

/-- Any character the regex dot matches (everything except a newline,
DOTALL being off). -/
def noNL (c : Char) : Bool := decide (¬ c = '\n')

/-- Literal matcher: the literal at the head of the text, with its length. -/
def litAt (lit : List Char) (t : List Char) : Option Nat :=
  if headMatch t lit then some lit.length else none

/-- Lazy-dot search: the smallest offset at which the tail matcher succeeds,
every skipped character satisfying `allowed`; models `.*?` followed by the
tail pattern, including regex backtracking over later occurrences. -/
def lazySearch (sub : List Char → Option Nat) (allowed : Char → Bool) :
    Nat → List Char → Option (Nat × Nat)
  | 0, _ => none
  | fuel + 1, t =>
    match sub t with
    | some len => some (0, len)
    | none =>
      match t with
      | [] => none
      | c :: ts =>
        if allowed c then
          match lazySearch sub allowed fuel ts with
          | some (k, len) => some (k + 1, len)
          | none => none
        else none

/-- Non-overlapping left-to-right `re.findall` count for a matcher that
reports the match length at a position. -/
def scanOpt (sub : List Char → Option Nat) : Nat → List Char → Nat
  | 0, _ => 0
  | _ + 1, [] => 0
  | fuel + 1, c :: ts =>
    match sub (c :: ts) with
    | some len => 1 + scanOpt sub fuel ((c :: ts).drop len)
    | none => scanOpt sub fuel ts

/-- Whether `re.search` finds the pattern anywhere in the text. -/
def hasPat (sub : List Char → Option Nat) (t : List Char) : Bool :=
  decide (scanOpt sub (t.length + 1) t ≠ 0)

/-- Matcher for the absolute-image pattern of validation.py line 461. -/
def absAt (t : List Char) : Option Nat :=
  if headMatch t (sl (r"![")) then
    match lazySearch (litAt (sl (r"](case-studies/images/"))) noNL (t.length + 1) (t.drop 2) with
    | some (k, len) => some (2 + k + len)
    | none => none
  else none

/-- Tail of the clickable-screenshot pattern: a timestamp suffix followed by
the closing parenthesis. -/
def tsEndAt (t : List Char) : Option Nat :=
  if headMatch t (sl (r"&t=")) then
    let run := (t.drop 3).takeWhile isDigit
    if run.isEmpty then none
    else if headMatch ((t.drop 3).drop run.length) (sl (r"s)")) then
      some (3 + run.length + 2)
    else none
  else none

/-- Stage of the clickable-screenshot pattern from the YouTube URL onwards. -/
def clickStage3 (t : List Char) : Option Nat :=
  if headMatch t (sl (r")](https://www.youtube.com/watch?v=")) then
    match lazySearch tsEndAt noNL (t.length + 1)
        (t.drop (sl (r")](https://www.youtube.com/watch?v=")).length) with
    | some (k, len) => some ((sl (r")](https://www.youtube.com/watch?v=")).length + k + len)
    | none => none
  else none

/-- Stage of the clickable-screenshot pattern from the image path onwards. -/
def clickStage2 (t : List Char) : Option Nat :=
  if headMatch t (sl (r"](images/")) then
    match lazySearch clickStage3 noNL (t.length + 1) (t.drop (sl (r"](images/")).length) with
    | some (k, len) => some ((sl (r"](images/")).length + k + len)
    | none => none
  else none

/-- Matcher for the clickable-screenshot pattern of validation.py line 487. -/
def clickAt (t : List Char) : Option Nat :=
  if headMatch t (sl (r"[![")) then
    match lazySearch clickStage2 noNL (t.length + 1) (t.drop 3) with
    | some (k, len) => some (3 + k + len)
    | none => none
  else none

/-- The optionally-prefixed image-path literal `\]\((case-studies/)?images/`,
greedy alternative first. -/
def imgTailA (t : List Char) : Option Nat :=
  if headMatch t (sl (r"](case-studies/images/")) then
    some (sl (r"](case-studies/images/")).length
  else if headMatch t (sl (r"](images/")) then some (sl (r"](images/")).length
  else none

/-- Matcher for the per-line image pattern of validation.py line 496. -/
def lineAAt (t : List Char) : Option Nat :=
  if headMatch t (sl (r"![")) then
    match lazySearch imgTailA noNL (t.length + 1) (t.drop 2) with
    | some (k, len) => some (2 + k + len)
    | none => none
  else none

/-- The `\)\]\(https?://` suffix of the per-line clickable pattern. -/
def httpTail (t : List Char) : Option Nat :=
  if headMatch t (sl (r")](https://")) then some (sl (r")](https://")).length
  else if headMatch t (sl (r")](http://")) then some (sl (r")](http://")).length
  else none

/-- Inner stage of the per-line clickable pattern of validation.py line 498. -/
def lineBStage2 (t : List Char) : Option Nat :=
  match imgTailA t with
  | some n =>
    match lazySearch httpTail noNL (t.length + 1) (t.drop n) with
    | some (k, len) => some (n + k + len)
    | none => none
  | none => none

/-- Matcher for the per-line clickable pattern of validation.py line 498. -/
def lineBAt (t : List Char) : Option Nat :=
  if headMatch t (sl (r"[![")) then
    match lazySearch lineBStage2 noNL (t.length + 1) (t.drop 3) with
    | some (k, len) => some (3 + k + len)
    | none => none
  else none

/-- Worker for `splitLines`. -/
def splitOnNL : List Char → List Char → List (List Char)
  | [], acc => [acc.reverse]
  | c :: rest, acc =>
    if c = '\n' then acc.reverse :: splitOnNL rest [] else splitOnNL rest (c :: acc)

/-- Python `content.split` on a newline separator, keeping empty lines. -/
def splitLines (t : List Char) : List (List Char) := splitOnNL t []

/-- Value of a digit run, most significant first. -/
def digitsVal : List Char → Nat → Nat
  | [], acc => acc
  | c :: rest, acc => digitsVal rest (acc * 10 + (c.toNat - ('0').toNat))

/-- Matcher for the timestamp capture `&t=(\d+)s`: match length and the
captured integer value. -/
def tsValAt (t : List Char) : Option (Nat × Nat) :=
  if headMatch t (sl (r"&t=")) then
    let run := (t.drop 3).takeWhile isDigit
    if run.isEmpty then none
    else if ((t.drop 3).drop run.length).head? = some 's' then
      some (3 + run.length + 1, digitsVal run 0)
    else none
  else none

/-- All captured timestamp values, in scan order. -/
def scanTs : Nat → List Char → List Nat
  | 0, _ => []
  | _ + 1, [] => []
  | fuel + 1, c :: ts =>
    match tsValAt (c :: ts) with
    | some (len, v) => v :: scanTs fuel ((c :: ts).drop len)
    | none => scanTs fuel ts

/-- The `int(t)` list of validation.py line 537: every captured digit string
as an integer. -/
def extractTs (t : List Char) : List Int := (scanTs (t.length + 1) t).map Int.ofNat

/-- Decimal rendering of an integer, as Python `str`. -/
def intStr (n : Int) : List Char :=
  if n < 0 then '-' :: natStr n.natAbs else natStr n.natAbs

/-- Python `repr` of a list of integers, as interpolated into f-strings. -/
def reprIntList (l : List Int) : List Char :=
  '[' :: (List.intercalate (sl (r", ")) (l.map intStr)) ++ [']']

/-- Case-study format validator (validation.py, `validate_case_study_format`).
The file read is modelled by `content?`: `none` stands for the open call
raising FileNotFoundError, `some content` for a successful read. -/
def validate_case_study_format (case_study_path : List Char)
    (content? : Option (List Char)) : ValidationResult :=
  match content? with
  | none =>
    { status := Severity.CRITICAL,
      checks := [{ name := (r"file_exists"),
                   passed := false,
                   severity := Severity.CRITICAL,
                   message := some (sl (r"Case study file not found: ") ++ case_study_path) }] }
  | some content =>
    let absCount := scanOpt absAt (content.length + 1) content
    let clickCount := scanOpt clickAt (content.length + 1) content
    let imgLines := ((splitLines content).filter
      (fun line => hasPat lineAAt line && !(hasPat lineBAt line))).map pyStrip
    let checks : List ValidationCheck :=
      { name := (r"file_exists"),
        passed := true,
        severity := Severity.INFO,
        message := some (sl (r"Case study file exists")) } ::
      (if absCount ≠ 0 then
        { name := (r"relative_image_paths"),
          passed := false,
          severity := Severity.CRITICAL,
          message := some (sl (r"Found ") ++ natStr absCount ++
            sl (r" image(s) with absolute paths (case-studies/images/...). Images must use relative paths (images/...) from case-studies/ directory.")) }
      else
        { name := (r"relative_image_paths"),
          passed := true,
          severity := Severity.INFO,
          message := some (sl (r"All image paths are relative")) }) ::
      (if imgLines ≠ [] then
        { name := (r"clickable_screenshot_links"),
          passed := false,
          severity := Severity.CRITICAL,
          message := some (sl (r"Found ") ++ natStr imgLines.length ++
            sl (r" non-clickable screenshot(s). Screenshots must be wrapped in clickable links to video timestamps: [![...](image)](video&t=XXs)")) }
      else if clickCount ≠ 0 then
        { name := (r"clickable_screenshot_links"),
          passed := true,
          severity := Severity.INFO,
          message := some (sl (r"All ") ++ natStr clickCount ++
            sl (r" screenshot(s) are clickable links to video timestamps")) }
      else
        { name := (r"clickable_screenshot_links"),
          passed := true,
          severity := Severity.INFO,
          message := some (sl (r"No screenshots found in case study")) }) ::
      (if clickCount ≠ 0 then
        (if (extractTs content).all (fun v => decide (0 ≤ v)) then
          [{ name := (r"valid_timestamps"),
             passed := true,
             severity := Severity.INFO,
             message := some (sl (r"All ") ++ natStr (extractTs content).length ++
               sl (r" timestamp(s) are valid")) }]
        else
          [{ name := (r"valid_timestamps"),
             passed := false,
             severity := Severity.CRITICAL,
             message := some (sl (r"Found ") ++
               natStr ((extractTs content).filter (fun v => decide (v < 0))).length ++
               sl (r" invalid timestamp(s): ") ++
               reprIntList ((extractTs content).filter (fun v => decide (v < 0)))) }])
      else [])
    { status := aggLoop checks Severity.PASS, checks := checks }

/-- Python `min` on two rationals. -/
def qmin (a b : ℚ) : ℚ := if a ≤ b then a else b

/-- Presenter profile data (the `profile_data` dict of
`validate_presenter_profile`): the fields the validator reads, with missing
keys modelled by empty values. -/
structure ProfileData where
  overview : List Char
  expertise : List Char
  talk_highlights : List Char
  key_themes : List Char
  stats_table : List Char
  biography : List Char
  talk_summaries : List (List Char)
  expertise_areas : List (List Char)
  cncf_projects : List (List Char)
deriving DecidableEq

/-- Number of truthy entries among the five required profile sections. -/
def presentSections (p : ProfileData) : Nat :=
  ([p.overview, p.expertise, p.talk_highlights, p.key_themes, p.stats_table].filter
    (fun s => !s.isEmpty)).length

/-- Factor 1, structure completeness: present sections over five. -/
def structureScore (p : ProfileData) : ℚ := mkRat (presentSections p) 5

/-- Factor 2, biography depth: biography length over 500, capped at 1. -/
def bioScore (p : ProfileData) : ℚ := qmin (mkRat p.biography.length 500) 1

/-- Factor 3, talk coverage: number of talk summaries over 5, capped at 1. -/
def talkScore (p : ProfileData) : ℚ := qmin (mkRat p.talk_summaries.length 5) 1

/-- Factor 4, expertise identification: expertise areas plus projects over 5,
capped at 1. -/
def expertiseScore (p : ProfileData) : ℚ :=
  qmin (mkRat (p.expertise_areas.length + p.cncf_projects.length) 5) 1

/-- The placeholder patterns scanned by factor 5. -/
def profilePlaceholders : List (List Char) :=
  [sl (r"lorem ipsum"), sl (r"placeholder"), sl (r"todo"), sl (r"tbd"), sl (r"fill in")]

/-- Whether the combined overview, expertise and key-themes content contains a
placeholder pattern (validation.py lines 1161 to 1171). -/
def hasPlaceholders (p : ProfileData) : Bool :=
  profilePlaceholders.any (fun pat =>
    pyIn pat (pyLower (joinSp [p.overview, p.expertise, p.key_themes])))

/-- Factor 5, factual consistency: 0 on placeholders, else 1. -/
def consistencyScore (p : ProfileData) : ℚ := if hasPlaceholders p then 0 else 1

/-- The overall quality score: each factor weighted 0.2 (the exact rational
mkRat 1 5) and summed (validation.py lines 1185 to 1188). -/
def overallScore (p : ProfileData) : ℚ :=
  mkRat 1 5 * structureScore p + mkRat 1 5 * bioScore p + mkRat 1 5 * talkScore p +
    mkRat 1 5 * expertiseScore p + mkRat 1 5 * consistencyScore p

/-- Presenter-profile validator (validation.py, `validate_presenter_profile`);
the float constants 0.8, 0.6, 0.7 of the source are the exact rationals
mkRat 4 5, mkRat 3 5 and mkRat 7 10. -/
def validate_presenter_profile (profile_data : ProfileData) (threshold : ℚ) : ValidationResult :=
  let talk_count := profile_data.talk_summaries.length
  let bio_length := profile_data.biography.length
  let areas := profile_data.expertise_areas.length
  let projects := profile_data.cncf_projects.length
  let checks : List ValidationCheck :=
    [ { name := (r"structure_completeness"),
        passed := decide (mkRat 4 5 ≤ structureScore profile_data),
        severity := if structureScore profile_data < mkRat 3 5 then Severity.CRITICAL
          else Severity.WARNING,
        message := if structureScore profile_data < mkRat 4 5 then
            some (sl (r"Missing required sections. Only ") ++
              natStr (presentSections profile_data) ++ sl (r"/5 present."))
          else none },
      { name := (r"biography_depth"),
        passed := decide (300 ≤ bio_length),
        severity := if bio_length < 100 then Severity.CRITICAL else Severity.WARNING,
        message := if bio_length < 300 then
            some (sl (r"Biography too short: ") ++ natStr bio_length ++
              sl (r" chars (minimum: 300 for quality)"))
          else none },
      { name := (r"talk_coverage"),
        passed := decide (2 ≤ talk_count),
        severity := if talk_count < 2 then Severity.CRITICAL else Severity.WARNING,
        message := if talk_count < 2 then
            some (sl (r"Too few talks analyzed: ") ++ natStr talk_count ++
              sl (r" (minimum: 2)"))
          else none },
      { name := (r"expertise_identification"),
        passed := decide (1 ≤ projects),
        severity := if projects = 0 then Severity.CRITICAL else Severity.WARNING,
        message := if projects = 0 then
            some (sl (r"No CNCF projects identified. Cannot create meaningful presenter profile."))
          else if areas + projects < 3 then
            some (sl (r"Limited expertise data: ") ++ natStr areas ++ sl (r" areas, ") ++
              natStr projects ++ sl (r" projects"))
          else none },
      { name := (r"factual_consistency"),
        passed := !hasPlaceholders profile_data,
        severity := Severity.CRITICAL,
        message := if hasPlaceholders profile_data then
            some (sl (r"Profile contains placeholder text. All content must be factual."))
          else none },
      { name := (r"overall_quality"),
        passed := decide (threshold ≤ overallScore profile_data),
        severity := if overallScore profile_data < threshold then Severity.CRITICAL
          else if overallScore profile_data < mkRat 7 10 then Severity.WARNING
          else Severity.PASS,
        message := if overallScore profile_data < threshold then
            some (sl (r"Profile quality score ") ++ fmtQ2 (overallScore profile_data) ++
              sl (r" below threshold ") ++ fmtQ2 threshold)
          else if overallScore profile_data < mkRat 7 10 then
            some (sl (r"Profile quality score ") ++ fmtQ2 (overallScore profile_data) ++
              sl (r" is marginal. Recommend improvements."))
          else none } ]
  { status := aggLoop checks Severity.PASS, checks := checks }

/-- The validator at its default caller threshold 0.60 (the exact rational
mkRat 3 5). -/
def validate_presenter_profileDefault (p : ProfileData) : ValidationResult :=
  validate_presenter_profile p (mkRat 3 5)

/-- A CNCF project entry of the analysis record: either a structured record
with an optional name field or a bare string (validation.py lines 274 to 277). -/
inductive ProjectRef where
  | pdict (name : Option (List Char))
  | pstr (s : List Char)
deriving DecidableEq

/-- The four required analysis sections; a missing key is `none`. -/
structure SectionsData where
  background : Option (List Char)
  challenge : Option (List Char)
  solution : Option (List Char)
  impact : Option (List Char)
deriving DecidableEq

/-- The analysis record of `validate_analysis`; a missing top-level key is
`none`. -/
structure AnalysisData where
  cncf_projects : Option (List ProjectRef)
  key_metrics : Option (List (List Char))
  sections : Option SectionsData
deriving DecidableEq

/-- Whether a required section is missing or falsy (validation.py line 291). -/
def secMissing (sec : Option SectionsData) (f : SectionsData → Option (List Char)) : Bool :=
  match sec with
  | none => true
  | some s =>
    match f s with
    | none => true
    | some v => v.isEmpty

/-- One `section_<name>_length` check, emitted only when the key is present
(validation.py lines 303 to 318). -/
def sectionLenCheck (checkName : String) (secName : List Char)
    (content? : Option (List Char)) : List ValidationCheck :=
  match content? with
  | none => []
  | some v =>
    let section_length := if v.isEmpty then 0 else v.length
    [{ name := checkName,
       passed := decide (100 ≤ section_length),
       severity := Severity.CRITICAL,
       message := if section_length < 100 then
           some (sl (r"Section ") ++ sq :: secName ++ [sq] ++ sl (r" too short: ") ++
             natStr section_length ++ sl (r" chars (minimum: 100)"))
         else none }]

/-- The per-section length checks in required-section order. -/
def sectionLenChecks (sec : Option SectionsData) : List ValidationCheck :=
  match sec with
  | none => []
  | some s =>
    sectionLenCheck (r"section_background_length") (sl (r"background")) s.background ++
    sectionLenCheck (r"section_challenge_length") (sl (r"challenge")) s.challenge ++
    sectionLenCheck (r"section_solution_length") (sl (r"solution")) s.solution ++
    sectionLenCheck (r"section_impact_length") (sl (r"impact")) s.impact

/-- Analysis validator (validation.py, `validate_analysis`). -/
def validate_analysis (analysis : AnalysisData) : ValidationResult :=
  let missing_keys : List (List Char) :=
    (if analysis.cncf_projects = none then [sl (r"cncf_projects")] else []) ++
    (if analysis.key_metrics = none then [sl (r"key_metrics")] else []) ++
    (if analysis.sections = none then [sl (r"sections")] else [])
  let cncf_projects := analysis.cncf_projects.getD []
  let sections := analysis.sections
  let missing_sections : List (List Char) :=
    (if secMissing sections (fun s => s.background) then [sl (r"background")] else []) ++
    (if secMissing sections (fun s => s.challenge) then [sl (r"challenge")] else []) ++
    (if secMissing sections (fun s => s.solution) then [sl (r"solution")] else []) ++
    (if secMissing sections (fun s => s.impact) then [sl (r"impact")] else [])
  let metrics := analysis.key_metrics.getD []
  let checks : List ValidationCheck :=
    [{ name := (r"required_keys"),
       passed := decide (missing_keys.length = 0),
       severity := Severity.CRITICAL,
       message := if missing_keys.isEmpty = false then
           some (sl (r"Missing required keys: ") ++ reprStrList missing_keys)
         else none },
     { name := (r"has_cncf_projects"),
       passed := decide (1 ≤ cncf_projects.length),
       severity := Severity.CRITICAL,
       message := if cncf_projects.length = 0 then
           some (sl (r"No CNCF projects identified. Cannot generate case study without cloud-native technology mentions."))
         else none }] ++
    (if cncf_projects.length = 1 then
      [{ name := (r"multiple_projects"),
         passed := false,
         severity := Severity.WARNING,
         message := some (sl (r"Only 1 CNCF project found: ") ++
           (match cncf_projects.head? with
            | some (ProjectRef.pdict nm) => nm.getD (sl (r"unknown"))
            | some (ProjectRef.pstr s) => s
            | none => []) ++
           sl (r". Case study may lack technical depth.")) }]
    else []) ++
    [{ name := (r"all_sections_present"),
       passed := decide (missing_sections.length = 0),
       severity := Severity.CRITICAL,
       message := if missing_sections.isEmpty = false then
           some (sl (r"Missing required sections: ") ++ reprStrList missing_sections)
         else none }] ++
    sectionLenChecks sections ++
    (if metrics.length = 0 then
      [{ name := (r"has_metrics"),
         passed := false,
         severity := Severity.WARNING,
         message := some (sl (r"No quantitative metrics found. Case study will lack measurable impact data.")) }]
    else [])
  { status := aggLoop checks Severity.PASS, checks := checks }

/-- A video entry of the multi-video data consumed by the presenter-family
validators. -/
structure Video where
  success : Bool
  title : List Char
  description : List Char
  transcript : List Char
  video_id : List Char
deriving DecidableEq

/-- The multi-video data dict, modelled by its videos list. -/
structure VideosData where
  videos : List Video
deriving DecidableEq

/-- End-of-string anchor `$` of Python regex: end of text or just before one
final newline. -/
def endOK (t : List Char) : Bool := decide (t = [] ∨ t = ['\n'])

/-- Anchored matcher for `^(first|last|full)\s*name$` on the lowercased name. -/
def namePat1 (t : List Char) : Bool :=
  [sl (r"first"), sl (r"last"), sl (r"full")].any (fun w =>
    headMatch t w &&
    (let u := t.drop w.length
     let ws := u.takeWhile isWS
     headMatch (u.drop ws.length) (sl (r"name")) && endOK ((u.drop ws.length).drop 4)))

/-- Anchored matcher for `^name\s*(here|tbd)?$`. -/
def namePat2 (t : List Char) : Bool :=
  headMatch t (sl (r"name")) &&
  (let u := t.drop 4
   let ws := u.takeWhile isWS
   let v := u.drop ws.length
   endOK v || (headMatch v (sl (r"here")) && endOK (v.drop 4)) ||
     (headMatch v (sl (r"tbd")) && endOK (v.drop 3)))

/-- Anchored matcher for `^(presenter|speaker|user)$`. -/
def namePat3 (t : List Char) : Bool :=
  [sl (r"presenter"), sl (r"speaker"), sl (r"user")].any (fun w =>
    headMatch t w && endOK (t.drop w.length))

/-- The placeholder test on the lowercased full name (validation.py lines
878 to 885): the two anchored name patterns, the bare-word pattern, and the
unanchored `lorem ipsum` and `todo|tbd|n/a` searches. -/
def namePlaceholder (t : List Char) : Bool :=
  namePat1 t || namePat2 t || namePat3 t || pyIn (sl (r"lorem ipsum")) t ||
    (pyIn (sl (r"todo")) t || pyIn (sl (r"tbd")) t || pyIn (sl (r"n/a")) t)

/-- The biography record of `validate_biography`; a missing key is `none`. -/
structure BiographyData where
  full_name : Option (List Char)
  biography : Option (List Char)
  location : Option (List Char)
  current_role : Option (List Char)
  github_username : Option (List Char)
deriving DecidableEq

/-- Python dict-get truthiness: present and non-empty. -/
def truthyOpt (o : Option (List Char)) : Bool :=
  match o with
  | none => false
  | some v => !v.isEmpty

/-- The placeholder substrings scanned in the biography text. -/
def bioPlaceholders : List (List Char) :=
  [sl (r"lorem ipsum"), sl (r"placeholder"), sl (r"todo"), sl (r"tbd"),
   sl (r"fill in"), sl (r"add bio here")]

/-- Biography validator (validation.py, `validate_biography`). -/
def validate_biography (biography_data : BiographyData) : ValidationResult :=
  let missing_fields : List (List Char) :=
    (if !truthyOpt biography_data.full_name then [sl (r"full_name")] else []) ++
    (if !truthyOpt biography_data.biography then [sl (r"biography")] else [])
  let full_name := biography_data.full_name.getD []
  let is_placeholder := namePlaceholder (pyLower full_name)
  let biography := biography_data.biography.getD []
  let bio_length := biography.length
  let has_placeholder := bioPlaceholders.any (fun pat => pyIn pat (pyLower biography))
  let missing_optional : List (List Char) :=
    (if !truthyOpt biography_data.location then [sl (r"location")] else []) ++
    (if !truthyOpt biography_data.current_role then [sl (r"current_role")] else []) ++
    (if !truthyOpt biography_data.github_username then [sl (r"github_username")] else [])
  let checks : List ValidationCheck :=
    [{ name := (r"required_fields"),
       passed := decide (missing_fields.length = 0),
       severity := Severity.CRITICAL,
       message := if missing_fields.isEmpty = false then
           some (sl (r"Missing required biography fields: ") ++ reprStrList missing_fields)
         else none },
     { name := (r"no_placeholder_name"),
       passed := !is_placeholder && decide (0 < full_name.length),
       severity := Severity.CRITICAL,
       message := if is_placeholder = true ∨ full_name.isEmpty then
           some (sl (r"Name appears to be placeholder: ") ++ sq :: full_name ++ [sq])
         else none },
     { name := (r"minimum_biography_length"),
       passed := decide (100 ≤ bio_length),
       severity := Severity.CRITICAL,
       message := if bio_length < 100 then
           some (sl (r"Biography too short: ") ++ natStr bio_length ++
             sl (r" chars (minimum: 100)"))
         else none },
     { name := (r"no_placeholder_bio"),
       passed := !has_placeholder,
       severity := Severity.CRITICAL,
       message := if has_placeholder then
           some (sl (r"Biography contains placeholder text"))
         else none }] ++
    (if 100 ≤ bio_length ∧ bio_length < 300 then
      [{ name := (r"biography_quality"),
         passed := false,
         severity := Severity.WARNING,
         message := some (sl (r"Biography is short (") ++ natStr bio_length ++
           sl (r" chars). Recommend ≥300 chars for quality profile.")) }]
    else []) ++
    (if missing_optional.isEmpty = false then
      [{ name := (r"optional_fields"),
         passed := false,
         severity := Severity.WARNING,
         message := some (sl (r"Missing optional fields that improve profile quality: ") ++
           reprStrList missing_optional) }]
    else [])
  { status := aggLoop checks Severity.PASS, checks := checks }

/-- The generic presenter-name placeholder set of `validate_presenter`. -/
def presenterGenerics : List (List Char) :=
  [sl (r"presenter"), sl (r"speaker"), sl (r"person"), sl (r"user"),
   sl (r"unknown"), sl (r"tbd"), sl (r"n/a")]

/-- Upper-case ASCII letter. -/
def isUpperAZ (c : Char) : Bool := decide ('A' ≤ c ∧ c ≤ 'Z')

/-- Lower-case ASCII letter. -/
def isLowerAZ (c : Char) : Bool := decide ('a' ≤ c ∧ c ≤ 'z')

/-- Greedy matcher for one capitalized word `[A-Z][a-z]+` at the head. -/
def capWordAt (t : List Char) : Option Nat :=
  match t with
  | [] => none
  | c :: rest =>
    if isUpperAZ c then
      let lows := rest.takeWhile isLowerAZ
      if lows.isEmpty then none else some (1 + lows.length)
    else none

/-- Greedy repetition `(?:\s+[A-Z][a-z]+)*`: total consumed length. -/
def capMore : Nat → List Char → Nat
  | 0, _ => 0
  | fuel + 1, t =>
    let ws := t.takeWhile isWS
    if ws.isEmpty then 0
    else
      match capWordAt (t.drop ws.length) with
      | some n => ws.length + n + capMore fuel ((t.drop ws.length).drop n)
      | none => 0

/-- Greedy matcher for the captured group `[A-Z][a-z]+(?:\s+[A-Z][a-z]+)+`
(at least two words) at the head: total length. -/
def capNameAt (t : List Char) : Option Nat :=
  match capWordAt t with
  | none => none
  | some n1 =>
    let extra := capMore (t.length + 1) (t.drop n1)
    if extra = 0 then none else some (n1 + extra)

/-- Matcher for `(?:speaker|presenter|by):\s*(name)`: match length and the
captured group. -/
def patColonAt (t : List Char) : Option (Nat × List Char) :=
  match (if headMatch t (sl (r"speaker:")) then some (sl (r"speaker:")).length
    else if headMatch t (sl (r"presenter:")) then some (sl (r"presenter:")).length
    else if headMatch t (sl (r"by:")) then some (sl (r"by:")).length
    else none) with
  | none => none
  | some plen =>
    let u := t.drop plen
    let ws := u.takeWhile isWS
    match capNameAt (u.drop ws.length) with
    | some n => some (plen + ws.length + n, (u.drop ws.length).take n)
    | none => none

/-- Matcher for `kw\s+(name)` with a literal keyword. -/
def patWordAt (kw : List Char) (t : List Char) : Option (Nat × List Char) :=
  if headMatch t kw then
    let u := t.drop kw.length
    let ws := u.takeWhile isWS
    if ws.isEmpty then none
    else
      match capNameAt (u.drop ws.length) with
      | some n => some (kw.length + ws.length + n, (u.drop ws.length).take n)
      | none => none
  else none

/-- Non-overlapping `re.finditer` collecting captured groups. -/
def scanCaps (sub : List Char → Option (Nat × List Char)) : Nat → List Char → List (List Char)
  | 0, _ => []
  | _ + 1, [] => []
  | fuel + 1, c :: ts =>
    match sub (c :: ts) with
    | some (len, cap) => cap :: scanCaps sub fuel ((c :: ts).drop len)
    | none => scanCaps sub fuel ts

/-- The speaker-attribution names detected in one video's title and
description, stripped, keeping those longer than five characters
(validation.py lines 804 to 819). -/
def videoCaps (text : List Char) : List (List Char) :=
  ((scanCaps patColonAt (text.length + 1) text ++
    scanCaps (patWordAt (sl (r"by"))) (text.length + 1) text ++
    scanCaps (patWordAt (sl (r"with"))) (text.length + 1) text).map pyStrip).filter
    (fun nm => decide (5 < nm.length))

/-- Set insertion: append if absent; models Python set insertion order as
first-occurrence order. -/
def dedupAppend {α : Type} [DecidableEq α] (acc : List α) (x : α) : List α :=
  if acc.any (fun y => decide (y = x)) then acc else acc ++ [x]

/-- Deduplicate a list keeping first occurrences; models a Python set built
by successive insertions. -/
def dedupList {α : Type} [DecidableEq α] (l : List α) : List α :=
  l.foldl dedupAppend []

/-- All detected speaker names over the successful videos, deduplicated. -/
def detectedNames (successful : List Video) : List (List Char) :=
  successful.foldl (fun acc v =>
    (videoCaps (v.title ++ [' '] ++ v.description)).foldl dedupAppend acc) []

/-- Whether the presenter name (full or a token longer than two characters)
appears in a video's lowercased title, description or transcript
(validation.py lines 773 to 784). -/
def videoNameMatch (name_lower : List Char) (parts : List (List Char)) (v : Video) : Bool :=
  let title := pyLower v.title
  let description := pyLower v.description
  let transcript := pyLower v.transcript
  (pyIn name_lower title || pyIn name_lower description || pyIn name_lower transcript) ||
  (parts.any (fun part =>
    decide (2 < part.length) &&
    (pyIn part title || pyIn part description || pyIn part transcript)))

/-- Presenter validator (validation.py, `validate_presenter`); the float
constants 0.5, 0.8 and the ratio threshold 60 of the source are the exact
rationals mkRat 1 2, mkRat 4 5 and mkRat 60 1. -/
def validate_presenter (presenter_name : List Char) (videos_data : VideosData) : ValidationResult :=
  let videos := videos_data.videos
  let successful_videos := videos.filter (fun v => v.success)
  let is_generic := if presenter_name.isEmpty then true
    else presenterGenerics.any (fun g => decide (g = pyStrip (pyLower presenter_name)))
  let checks3 : List ValidationCheck :=
    [{ name := (r"presenter_exists"),
       passed := decide (¬presenter_name.isEmpty ∧ ¬(pyStrip presenter_name).isEmpty),
       severity := Severity.CRITICAL,
       message := if presenter_name.isEmpty then some (sl (r"No presenter name provided"))
         else none },
     { name := (r"not_generic"),
       passed := !is_generic,
       severity := Severity.CRITICAL,
       message := if is_generic then
           some (sl (r"Presenter name is generic placeholder: ") ++
             sq :: presenter_name ++ [sq])
         else none },
     { name := (r"minimum_videos"),
       passed := decide (2 ≤ successful_videos.length),
       severity := Severity.CRITICAL,
       message := some (sl (r"Need at least 2 successful videos for profile, got ") ++
         natStr successful_videos.length) }]
  if successful_videos.isEmpty then
    { status := Severity.CRITICAL, checks := checks3 }
  else
    let name_lower := pyLower presenter_name
    let name_parts := pyWords name_lower
    let nMatches := (successful_videos.filter (videoNameMatch name_lower name_parts)).length
    let match_rate : ℚ := mkRat nMatches successful_videos.length
    let check4 : ValidationCheck :=
      { name := (r"name_in_videos"),
        passed := decide (mkRat 1 2 ≤ match_rate),
        severity := if match_rate < mkRat 1 2 then Severity.CRITICAL
          else if match_rate < mkRat 4 5 then Severity.WARNING
          else Severity.PASS,
        message := if match_rate < mkRat 1 2 then
            some (sl (r"Presenter name found in ") ++ natStr nMatches ++ ['/'] ++
              natStr successful_videos.length ++ sl (r" videos (") ++ fmtPct match_rate ++
              sl (r"). Expected ≥50%."))
          else if match_rate < mkRat 4 5 then
            some (sl (r"Presenter name only found in ") ++ natStr nMatches ++ ['/'] ++
              natStr successful_videos.length ++ sl (r" videos (") ++ fmtPct match_rate ++
              sl (r"). Verify identity."))
          else none }
    let conflicts := (detectedNames successful_videos).filter (fun d =>
      decide (fuzzSim (pyLower presenter_name) (pyLower d) < mkRat 60 1))
    let checks : List ValidationCheck :=
      checks3 ++ [check4] ++
      (if conflicts.isEmpty = false then
        [{ name := (r"no_conflicting_names"),
           passed := false,
           severity := Severity.CRITICAL,
           message := some (sl (r"Detected conflicting presenter names: ") ++
             reprStrList conflicts ++ sl (r". Verify all videos are from same person.")) }]
      else [])
    { status := aggLoop checks Severity.PASS, checks := checks }

/-- The existing-profile metadata consumed by `validate_profile_update`;
missing keys are modelled by empty defaults, and each expertise-area entry by
its optional area field. -/
structure ProfileMeta where
  name : List Char
  github_username : List Char
  video_ids_processed : List (List Char)
  expertise_areas : List (Option (List Char))
deriving DecidableEq

/-- Python `repr` of an optional string: `None` or the quoted string. -/
def reprOptStr (o : Option (List Char)) : List Char :=
  match o with
  | none => sl (r"None")
  | some s => sq :: s ++ [sq]

/-- Python `repr` of a list of optional strings. -/
def reprOptList (l : List (Option (List Char))) : List Char :=
  '[' :: (List.intercalate (sl (r", ")) (l.map reprOptStr)) ++ [']']

/-- Profile-update validator (validation.py, `validate_profile_update`); the
float constants 0.3 and 0.5 of the source are the exact rationals mkRat 3 10
and mkRat 1 2; Python set iteration order is modelled as first-occurrence
order. -/
def validate_profile_update (existing_profile : ProfileMeta)
    (new_videos_data : VideosData) : ValidationResult :=
  let new_videos := new_videos_data.videos.filter (fun v => v.success)
  let check1 : ValidationCheck :=
    { name := (r"has_new_videos"),
      passed := decide (1 ≤ new_videos.length),
      severity := Severity.CRITICAL,
      message := some (sl (r"No successful new videos to add (got ") ++
        natStr new_videos.length ++ [')']) }
  if new_videos.isEmpty then
    { status := Severity.CRITICAL, checks := [check1] }
  else
    let existing_name := existing_profile.name
    let name_lower := pyLower existing_name
    let name_matches := (new_videos.filter (fun v =>
      pyIn name_lower (pyLower v.title) || pyIn name_lower (pyLower v.description) ||
        pyIn name_lower (pyLower v.transcript))).length
    let match_rate : ℚ := if new_videos.isEmpty then 0 else mkRat name_matches new_videos.length
    let check2 : ValidationCheck :=
      { name := (r"name_consistency"),
        passed := decide (mkRat 3 10 ≤ match_rate),
        severity := if match_rate = 0 then Severity.CRITICAL else Severity.WARNING,
        message := if match_rate = 0 then
            some (sl (r"Presenter name ") ++ sq :: existing_name ++ [sq] ++
              sl (r" not found in any new videos. Wrong person?"))
          else if match_rate < mkRat 1 2 then
            some (sl (r"Presenter name only found in ") ++ natStr name_matches ++ ['/'] ++
              natStr new_videos.length ++ sl (r" new videos (") ++ fmtPct match_rate ++
              sl (r"). Verify identity."))
          else none }
    let duplicates := (dedupList existing_profile.video_ids_processed).filter
      (fun i => new_videos.any (fun v => decide (v.video_id = i)))
    let existing_areas := dedupList existing_profile.expertise_areas
    let checks : List ValidationCheck :=
      [check1, check2] ++
      (if duplicates.isEmpty = false then
        [{ name := (r"no_duplicates"),
           passed := false,
           severity := Severity.WARNING,
           message := some (sl (r"Found ") ++ natStr duplicates.length ++
             sl (r" video(s) already in profile: ") ++ reprStrList (duplicates.take 3)) }]
      else []) ++
      (if existing_areas.isEmpty = false then
        [{ name := (r"expertise_consistency"),
           passed := true,
           severity := Severity.INFO,
           message := some (sl (r"Existing expertise areas: ") ++ reprOptList existing_areas ++
             sl (r". Verify new videos are consistent.")) }]
      else [])
    { status := aggLoop checks Severity.PASS, checks := checks }

/-- Concrete markdown content with one clickable screenshot at timestamp 42. -/
def demoContent : List Char :=
  sl (r"[![shot](images/s.png)](https://www.youtube.com/watch?v=abc&t=42s)")

/-- Concrete transcript of exactly 999 characters. -/
def t999 : List Char := List.replicate 999 'a'

/-- Concrete transcript of exactly 1000 characters. -/
def t1000 : List Char := List.replicate 1000 'a'

/-- Concrete transcript of exactly 4999 characters and 100 words. -/
def t4999 : List Char := List.flatten (List.replicate 99 ['a', ' ']) ++ List.replicate 4801 'a'

/-- Concrete transcript of exactly 5000 characters and 101 words. -/
def t5000 : List Char := List.flatten (List.replicate 100 ['a', ' ']) ++ List.replicate 4800 'a'

/-- Concrete list of 49 segments. -/
def segs49 : List Segment := List.replicate 49 ⟨0, 0⟩

/-- Concrete list of 50 segments. -/
def segs50 : List Segment := List.replicate 50 ⟨0, 0⟩

theorem hasFailed_iff (s : Severity) (cs : List ValidationCheck) :
    hasFailed s cs = true ↔ ∃ c ∈ cs, c.passed = false ∧ c.severity = s := by
  simp [hasFailed, List.any_eq_true]

theorem escalationSpec_specStatus (cs : List ValidationCheck) :
    EscalationSpec ⟨specStatus cs, cs⟩ := by
  unfold EscalationSpec specStatus
  simp only [← hasFailed_iff]
  by_cases h1 : hasFailed Severity.CRITICAL cs = true
  · simp [h1]
  · by_cases h2 : hasFailed Severity.WARNING cs = true
    · simp [h1, h2]
    · simp [h1, h2]

theorem aggLoop_warning (cs : List ValidationCheck) :
    aggLoop cs Severity.WARNING =
      if hasFailed Severity.CRITICAL cs then Severity.CRITICAL else Severity.WARNING := by
  induction cs with
  | nil => simp [aggLoop, hasFailed]
  | cons c rest ih =>
    by_cases hp : c.passed = false
    · by_cases hs : c.severity = Severity.CRITICAL
      · simp [aggLoop, hp, hs, hasFailed]
      · by_cases hw : c.severity = Severity.WARNING
        · simp [aggLoop, hp, hs, hw, ih, hasFailed]
        · simp [aggLoop, hp, hs, hw, ih, hasFailed]
    · simp [aggLoop, hp, ih, hasFailed]

theorem aggLoop_pass (cs : List ValidationCheck) :
    aggLoop cs Severity.PASS = specStatus cs := by
  induction cs with
  | nil => simp [aggLoop, specStatus, hasFailed]
  | cons c rest ih =>
    by_cases hp : c.passed = false
    · by_cases hs : c.severity = Severity.CRITICAL
      · simp [aggLoop, hp, hs, specStatus, hasFailed]
      · by_cases hw : c.severity = Severity.WARNING
        · simp [aggLoop, hp, hs, hw, aggLoop_warning, specStatus, hasFailed]
        · simp [aggLoop, hp, hs, hw, ih, specStatus, hasFailed]
    · simp [aggLoop, hp, ih, specStatus, hasFailed]

theorem aggNB_critical (cs : List ValidationCheck) :
    aggNB cs Severity.CRITICAL = Severity.CRITICAL := by
  induction cs with
  | nil => simp [aggNB]
  | cons c rest ih => simp [aggNB, ih]

theorem aggNB_warning (cs : List ValidationCheck) :
    aggNB cs Severity.WARNING =
      if hasFailed Severity.CRITICAL cs then Severity.CRITICAL else Severity.WARNING := by
  induction cs with
  | nil => simp [aggNB, hasFailed]
  | cons c rest ih =>
    by_cases hp : c.passed = false
    · by_cases hs : c.severity = Severity.CRITICAL
      · simp [aggNB, hp, hs, aggNB_critical, hasFailed]
      · simp [aggNB, hp, hs, ih, hasFailed]
    · simp [aggNB, hp, ih, hasFailed]

theorem aggNB_pass (cs : List ValidationCheck) :
    aggNB cs Severity.PASS = specStatus cs := by
  induction cs with
  | nil => simp [aggNB, specStatus, hasFailed]
  | cons c rest ih =>
    by_cases hp : c.passed = false
    · by_cases hs : c.severity = Severity.CRITICAL
      · simp [aggNB, hp, hs, aggNB_critical, specStatus, hasFailed]
      · by_cases hw : c.severity = Severity.WARNING
        · simp [aggNB, hp, hs, hw, aggNB_warning, specStatus, hasFailed]
        · simp [aggNB, hp, hs, hw, ih, specStatus, hasFailed]
    · simp [aggNB, hp, ih, specStatus, hasFailed]

theorem escalation_of_aggLoop (cs : List ValidationCheck) :
    EscalationSpec ⟨aggLoop cs Severity.PASS, cs⟩ := by
  rw [aggLoop_pass]; exact escalationSpec_specStatus cs

theorem escalation_of_aggNB (cs : List ValidationCheck) :
    EscalationSpec ⟨aggNB cs Severity.PASS, cs⟩ := by
  rw [aggNB_pass]; exact escalationSpec_specStatus cs

theorem escalation_of_critFailure (cs : List ValidationCheck)
    (h : ∃ c ∈ cs, c.passed = false ∧ c.severity = Severity.CRITICAL) :
    EscalationSpec ⟨Severity.CRITICAL, cs⟩ := by
  refine ⟨by simpa using h, iff_of_false (by simp) ?_, iff_of_false (by simp) ?_⟩
  · rintro ⟨hn, -⟩; exact hn h
  · rintro ⟨hn, -⟩; exact hn h

/-- Claim C7: for every ValidationResult, `has_warnings()` is true iff some
check in the list has severity WARNING, regardless of whether that check
passed and independently of the aggregate status; in particular it can be
true while the status is CRITICAL. -/
theorem C7_has_warnings :
    (∀ r : ValidationResult,
        r.has_warnings = true ↔ ∃ c ∈ r.checks, c.severity = Severity.WARNING) ∧
    (∃ r : ValidationResult, r.status = Severity.CRITICAL ∧ r.has_warnings = true) := by
  constructor
  · intro r
    simp [ValidationResult.has_warnings, List.any_eq_true]
  · exact ⟨⟨Severity.CRITICAL, [⟨(r"audit"), true, Severity.WARNING, none⟩]⟩, rfl, rfl⟩

/-- Claim C5: in `validate_company_name` the confidence_threshold check's severity
is CRITICAL below 0.5, WARNING on [0.5, 0.7), INFO at or above 0.7, and the check
passes iff confidence is at least 0.7; with the otherwise-valid name Intuit,
confidence 0.3 yields status CRITICAL, 0.6 WARNING and 0.8 PASS. -/
theorem C5_confidence_threshold :
    (∀ (name title : List Char) (conf : ℚ),
      ((validate_company_name name title conf).checks.getD 3 default).severity =
        (if conf < mkRat 1 2 then Severity.CRITICAL
         else if conf < mkRat 7 10 then Severity.WARNING else Severity.INFO) ∧
      (((validate_company_name name title conf).checks.getD 3 default).passed = true ↔
        mkRat 7 10 ≤ conf)) ∧
    (validate_company_name (sl (r"Intuit")) (sl (r"Talk")) (mkRat 3 10)).status = Severity.CRITICAL ∧
    (validate_company_name (sl (r"Intuit")) (sl (r"Talk")) (mkRat 3 5)).status = Severity.WARNING ∧
    (validate_company_name (sl (r"Intuit")) (sl (r"Talk")) (mkRat 4 5)).status = Severity.PASS := by
  refine ⟨?_, by decide, by decide, by decide⟩
  intro name title conf
  constructor
  · simp [validate_company_name, List.getD]
  · simp [validate_company_name, List.getD]

/-- Claim C6: threshold boundaries of `validate_transcript`: a 999-character
transcript fails minimum_length at CRITICAL and a 1000-character one passes it;
a non-empty transcript under 5000 characters gets the failed WARNING check
short_transcript, so with enough words and segments 4999 characters give status
WARNING and 5000 characters give PASS; 49 segments fail sufficient_segments at
CRITICAL while 50 pass it. -/
theorem C6_transcript_boundaries :
    (∀ (t : List Char) (segs : List Segment), t.length = 999 →
      ((validate_transcript t segs).checks.getD 1 default).passed = false ∧
      ((validate_transcript t segs).checks.getD 1 default).severity = Severity.CRITICAL) ∧
    (∀ (t : List Char) (segs : List Segment), t.length = 1000 →
      ((validate_transcript t segs).checks.getD 1 default).passed = true) ∧
    (∀ (t : List Char) (segs : List Segment), t ≠ [] → t.length < 5000 →
      ∃ c ∈ (validate_transcript t segs).checks,
        c.name = (r"short_transcript") ∧ c.passed = false ∧ c.severity = Severity.WARNING) ∧
    (∀ (t : List Char) (segs : List Segment), t.length = 4999 →
      100 ≤ (pyWords t).length → 50 ≤ segs.length →
      (validate_transcript t segs).status = Severity.WARNING) ∧
    (∀ (t : List Char) (segs : List Segment), 5000 ≤ t.length →
      100 ≤ (pyWords t).length → 50 ≤ segs.length →
      (validate_transcript t segs).status = Severity.PASS) ∧
    (∀ (t : List Char) (segs : List Segment), segs.length = 49 →
      ((validate_transcript t segs).checks.getD 3 default).passed = false ∧
      ((validate_transcript t segs).checks.getD 3 default).severity = Severity.CRITICAL) ∧
    (∀ (t : List Char) (segs : List Segment), segs.length = 50 →
      ((validate_transcript t segs).checks.getD 3 default).passed = true) := by
  refine ⟨?_, ?_, ?_, ?_, ?_, ?_, ?_⟩
  · intro t segs h
    have he : t.isEmpty = false := by cases t <;> simp_all
    simp [validate_transcript, List.getD, he, h]
  · intro t segs h
    have he : t.isEmpty = false := by cases t <;> simp_all
    simp [validate_transcript, List.getD, he, h]
  · intro t segs h1 h2
    have he : t.isEmpty = false := by cases t <;> simp_all
    simp [validate_transcript, he, h2]
  · intro t segs h hw hs
    have he : t.isEmpty = false := by cases t <;> simp_all
    have hse : segs.isEmpty = false := by cases segs <;> simp_all
    have hw2 : ¬((pyWords t).length < 100) := by omega
    have hs2 : ¬(segs.length < 50) := by omega
    simp [validate_transcript, he, hse, h, hw, hs, hw2, hs2, aggLoop]
  · intro t segs h hw hs
    have he : t.isEmpty = false := by cases t <;> simp_all
    have hse : segs.isEmpty = false := by cases segs <;> simp_all
    have h1000 : 1000 ≤ t.length := by omega
    have hlt : ¬(t.length < 5000) := by omega
    have hlt2 : ¬(t.length < 1000) := by omega
    have hw2 : ¬((pyWords t).length < 100) := by omega
    have hs2 : ¬(segs.length < 50) := by omega
    simp [validate_transcript, he, hse, h1000, hlt, hlt2, hw, hs, hw2, hs2, aggLoop]
  · intro t segs h
    have hse : segs.isEmpty = false := by cases segs <;> simp_all
    simp [validate_transcript, List.getD, hse, h]
  · intro t segs h
    have hse : segs.isEmpty = false := by cases segs <;> simp_all
    simp [validate_transcript, List.getD, hse, h]

theorem pySplit_cons_a (rest acc : List Char) :
    pySplit ('a' :: rest) acc = pySplit rest ('a' :: acc) := by
  simp [pySplit, isWS]

theorem pySplit_cons_sp (rest : List Char) (a : Char) (acc : List Char) :
    pySplit (' ' :: rest) (a :: acc) = (a :: acc).reverse :: pySplit rest [] := by
  simp [pySplit, isWS]

theorem pySplit_repl_a (m : Nat) (hm : m ≠ 0) (acc : List Char) :
    pySplit (List.replicate m 'a') acc = [acc.reverse ++ List.replicate m 'a'] := by
  induction m generalizing acc with
  | zero => exact absurd rfl hm
  | succ k ih =>
    rw [List.replicate_succ, pySplit_cons_a]
    by_cases hk : k = 0
    · subst hk
      simp [pySplit]
    · rw [ih hk]
      simp [List.replicate_succ]

theorem pySplit_blocks (n : Nat) (rest : List Char) :
    pySplit (List.flatten (List.replicate n ['a', ' ']) ++ rest) [] =
      List.replicate n ['a'] ++ pySplit rest [] := by
  induction n with
  | zero => simp
  | succ k ih =>
    rw [List.replicate_succ, List.flatten_cons, List.append_assoc]
    show pySplit ('a' :: ' ' :: (List.flatten (List.replicate k ['a', ' ']) ++ rest)) [] = _
    rw [pySplit_cons_a, pySplit_cons_sp _ 'a' [], ih]
    simp [List.replicate_succ]

theorem words_t4999 : pyWords t4999 = List.replicate 99 ['a'] ++ [List.replicate 4801 'a'] := by
  unfold pyWords t4999
  rw [pySplit_blocks, pySplit_repl_a 4801 (by norm_num) []]
  simp only [List.reverse_nil, List.nil_append]

theorem words_t5000 : pyWords t5000 = List.replicate 100 ['a'] ++ [List.replicate 4800 'a'] := by
  unfold pyWords t5000
  rw [pySplit_blocks, pySplit_repl_a 4800 (by norm_num) []]
  simp only [List.reverse_nil, List.nil_append]

theorem len_t4999 : t4999.length = 4999 := by
  simp only [t4999, List.length_append, List.length_flatten, List.map_replicate,
    List.sum_replicate, List.length_replicate, List.length_cons, List.length_nil, smul_eq_mul]

theorem len_t5000 : t5000.length = 5000 := by
  simp only [t5000, List.length_append, List.length_flatten, List.map_replicate,
    List.sum_replicate, List.length_replicate, List.length_cons, List.length_nil, smul_eq_mul]

/-- Witness for C6: the boundary facts instantiated on concrete transcripts of
lengths 999, 1000, 4999 and 5000 characters and on 49 and 50 segments. -/
theorem C6_transcript_boundaries_witness :
    (((validate_transcript t999 segs50).checks.getD 1 default).passed = false ∧
      ((validate_transcript t999 segs50).checks.getD 1 default).severity = Severity.CRITICAL) ∧
    ((validate_transcript t1000 segs50).checks.getD 1 default).passed = true ∧
    (∃ c ∈ (validate_transcript t999 segs50).checks,
      c.name = (r"short_transcript") ∧ c.passed = false ∧ c.severity = Severity.WARNING) ∧
    (validate_transcript t4999 segs50).status = Severity.WARNING ∧
    (validate_transcript t5000 segs50).status = Severity.PASS ∧
    (((validate_transcript t1000 segs49).checks.getD 3 default).passed = false ∧
      ((validate_transcript t1000 segs49).checks.getD 3 default).severity = Severity.CRITICAL) ∧
    ((validate_transcript t1000 segs50).checks.getD 3 default).passed = true := by
  have l999 : t999.length = 999 := by simp only [t999, List.length_replicate]
  have l1000 : t1000.length = 1000 := by simp only [t1000, List.length_replicate]
  have ne999 : t999 ≠ [] := by
    apply List.ne_nil_of_length_pos
    simp only [t999, List.length_replicate]
    norm_num
  have w4999 : 100 ≤ (pyWords t4999).length := by
    rw [words_t4999]
    simp only [List.length_append, List.length_replicate, List.length_cons, List.length_nil]
    norm_num
  have w5000 : 100 ≤ (pyWords t5000).length := by
    rw [words_t5000]
    simp only [List.length_append, List.length_replicate, List.length_cons, List.length_nil]
    norm_num
  have s49 : segs49.length = 49 := by simp only [segs49, List.length_replicate]
  have s50 : 50 ≤ segs50.length := by simp only [segs50, List.length_replicate]; exact le_refl 50
  refine ⟨C6_transcript_boundaries.1 t999 segs50 l999,
    C6_transcript_boundaries.2.1 t1000 segs50 l1000,
    C6_transcript_boundaries.2.2.1 t999 segs50 ne999 (by rw [l999]; norm_num),
    C6_transcript_boundaries.2.2.2.1 t4999 segs50 len_t4999 w4999 s50,
    C6_transcript_boundaries.2.2.2.2.1 t5000 segs50 (le_of_eq len_t5000.symm) w5000 s50,
    C6_transcript_boundaries.2.2.2.2.2.1 t1000 segs49 s49,
    C6_transcript_boundaries.2.2.2.2.2.2 t1000 segs50 (by simp only [segs50, List.length_replicate])⟩

theorem mostMentioned_of_empty (expected text : List Char)
    (h : (otherCompanies expected text).isEmpty = true) :
    mostMentioned expected text = 0 := by
  unfold mostMentioned mentionCounts listMax
  rw [List.isEmpty_iff] at h
  rw [h]
  rfl

/-- Claim C2 counterexample: with expected company Uber and generated text
consisting only of the word Kubernetes, the check expected_company_mentioned
passes (the source tests a plain case-insensitive substring), although Uber
has no word-boundary occurrence there, so the claimed iff fails. -/
theorem C2_counterexample :
    ¬(((validate_company_consistency (sl (r"Uber")) [sl (r"Kubernetes")]).checks.getD 0
          default).passed = true ↔
        wbHas (pyLower (joinSp [sl (r"Kubernetes")])) (pyLower (sl (r"Uber"))) = true) := by
  decide

/-- Claim C2 as amended: the check expected_company_mentioned passes iff the
expected company name appears case-insensitively as a plain substring
(not a word-boundary match) of the concatenated generated text, and a CRITICAL
failure with the not-mentioned message is emitted when it is absent. -/
theorem C2_expected_mentioned_amended :
    ∀ (expected : List Char) (sections : List (List Char)),
      ((validate_company_consistency expected sections).checks.getD 0 default).name =
        (r"expected_company_mentioned") ∧
      (((validate_company_consistency expected sections).checks.getD 0 default).passed = true ↔
        pyIn (pyLower expected) (pyLower (joinSp sections)) = true) ∧
      ((validate_company_consistency expected sections).checks.getD 0 default).severity =
        Severity.CRITICAL ∧
      (pyIn (pyLower expected) (pyLower (joinSp sections)) = false →
        ((validate_company_consistency expected sections).checks.getD 0 default).message =
          some (sl (r"Expected company ") ++ sq :: expected ++ [sq] ++
            sl (r" not mentioned in generated case study!"))) := by
  intro expected sections
  refine ⟨rfl, by simp [validate_company_consistency, List.getD], rfl, ?_⟩
  intro h
  simp [validate_company_consistency, List.getD, h]

/-- Witness for the amended C2: with expected company Intuit and generated text
Kubernetes, the substring test fails and the not-mentioned message is emitted. -/
theorem C2_expected_mentioned_amended_witness :
    ((validate_company_consistency (sl (r"Intuit")) [sl (r"Kubernetes")]).checks.getD 0
        default).message =
      some (sl (r"Expected company ") ++ sq :: sl (r"Intuit") ++ [sq] ++
        sl (r" not mentioned in generated case study!")) :=
  (C2_expected_mentioned_amended (sl (r"Intuit")) [sl (r"Kubernetes")]).2.2.2 (by decide)

/-- Claim C3: known-company scanning is case-insensitive word-boundary matching
(Uber inside Kubernetes never matches), company_mismatch is emitted (failed,
CRITICAL) exactly when the most-mentioned other known company strictly exceeds
the expected company's word-boundary count, otherwise mentioned other companies
produce the failed WARNING check other_companies_mentioned; concretely, Intuit
expected once against Spotify five times yields company_mismatch at CRITICAL
with a message naming both companies and both counts. -/
theorem C3_company_mismatch :
    (∀ (expected text company : List Char),
        company ∈ otherCompanies expected text ↔
          (company ∈ known_companies ∧ ¬ pyLower company = pyLower expected ∧
            wbHas (pyLower text) (pyLower company) = true)) ∧
    (∀ (expected : List Char) (sections : List (List Char)),
        (∃ c ∈ (validate_company_consistency expected sections).checks,
            c.name = (r"company_mismatch") ∧ c.passed = false ∧
              c.severity = Severity.CRITICAL) ↔
          expectedMentions expected (joinSp sections) <
            mostMentioned expected (joinSp sections)) ∧
    (∀ (expected : List Char) (sections : List (List Char)),
        (∃ c ∈ (validate_company_consistency expected sections).checks,
            c.name = (r"other_companies_mentioned") ∧ c.passed = false ∧
              c.severity = Severity.WARNING) ↔
          ((otherCompanies expected (joinSp sections)).isEmpty = false ∧
            ¬ expectedMentions expected (joinSp sections) <
              mostMentioned expected (joinSp sections))) ∧
    wbHas (pyLower (sl (r"Kubernetes"))) (pyLower (sl (r"Uber"))) = false ∧
    (validate_company_consistency (sl (r"Intuit")) [mismatchDemoText]).checks.getD 1 default =
      { name := (r"company_mismatch"), passed := false, severity := Severity.CRITICAL,
        message := some (sl (r"Company mismatch! Expected ") ++ sq :: sl (r"Intuit") ++ [sq] ++
          sl (r" (1 mentions) but case study appears to be about ") ++
          sq :: sl (r"Spotify") ++ [sq] ++
          sl (r" (5 mentions). STOPPING to prevent incorrect attribution.")) } := by
  refine ⟨?_, ?_, ?_, by decide, by decide⟩
  · intro expected text company
    simp [otherCompanies, List.mem_filter]
  · intro expected sections
    by_cases he : (otherCompanies expected (joinSp sections)).isEmpty = false
    · by_cases hlt : expectedMentions expected (joinSp sections) <
        mostMentioned expected (joinSp sections)
      · simp [validate_company_consistency, he, hlt]
      · simp [validate_company_consistency, he, hlt]
    · have he2 : (otherCompanies expected (joinSp sections)).isEmpty = true := by
        simpa using he
      have hm := mostMentioned_of_empty expected (joinSp sections) he2
      simp [validate_company_consistency, he2, hm]
  · intro expected sections
    by_cases he : (otherCompanies expected (joinSp sections)).isEmpty = false
    · by_cases hlt : expectedMentions expected (joinSp sections) <
        mostMentioned expected (joinSp sections)
      · simp [validate_company_consistency, he, hlt]
      · simp [validate_company_consistency, he, hlt]
    · have he2 : (otherCompanies expected (joinSp sections)).isEmpty = true := by
        simpa using he
      simp [validate_company_consistency, he2]

/-- Witness for C3: on the concrete Intuit-vs-Spotify text, Spotify is detected
as an other company and company_mismatch is emitted as a failed CRITICAL check. -/
theorem C3_company_mismatch_witness :
    (sl (r"Spotify")) ∈ otherCompanies (sl (r"Intuit")) mismatchDemoText ∧
    (∃ c ∈ (validate_company_consistency (sl (r"Intuit")) [mismatchDemoText]).checks,
        c.name = (r"company_mismatch") ∧ c.passed = false ∧
          c.severity = Severity.CRITICAL) := by
  constructor
  · exact (C3_company_mismatch.1 (sl (r"Intuit")) mismatchDemoText (sl (r"Spotify"))).mpr
      ⟨by decide, by decide, by decide⟩
  · exact (C3_company_mismatch.2.1 (sl (r"Intuit")) [mismatchDemoText]).mpr (by decide)

/-- Claim C4 counterexample: a candidate metric whose best chunk similarity is
exactly 85 (so at least 85, as the claim requires for non-fabricated) is
nevertheless classified fabricated, because the source requires similarity
strictly greater than 85; the validator returns WARNING, not PASS. -/
theorem C4_counterexample :
    simBoundaryGen ∈ foundMetrics (joinSp [simBoundaryGen]) ∧
    simBoundaryTr ∈ pyWords simBoundaryTr ∧
    bestAlignSim (normMetric simBoundaryGen) simBoundaryTr = mkRat 85 1 ∧
    simBoundaryGen ∈ fabricatedMetrics [simBoundaryGen] simBoundaryTr ∧
    (validate_metrics [simBoundaryGen] simBoundaryTr).status = Severity.WARNING := by
  refine ⟨by decide, by decide, by decide, by decide, by decide⟩

/-- Claim C4 as amended: a candidate metric is non-fabricated iff it is an
exact substring of the transcript or some whitespace chunk has similarity
strictly greater than 85 percent with its normalization; the result is a
single check, failed WARNING with the first-five message when fabricated
metrics exist, else passing INFO; the status is never CRITICAL; and the
50-percent rephrasing example still yields PASS. -/
theorem C4_metrics_amended :
    (∀ (vals : List (List Char)) (ts : List Char),
      ((validate_metrics vals ts).status = Severity.WARNING ∨
        (validate_metrics vals ts).status = Severity.PASS) ∧
      ((validate_metrics vals ts).status = Severity.PASS ↔
        fabricatedMetrics vals ts = []) ∧
      (∀ m ∈ foundMetrics (joinSp vals),
        (¬ m ∈ fabricatedMetrics vals ts ↔
          (pyIn m ts = true ∨
            ∃ chunk ∈ pyWords ts,
              mkRat 85 1 < bestAlignSim (normMetric m) chunk))) ∧
      (fabricatedMetrics vals ts = [] →
        (validate_metrics vals ts).checks =
          [{ name := (r"metrics_in_transcript"), passed := true,
             severity := Severity.INFO,
             message := some (sl (r"All metrics verified against transcript")) }]) ∧
      (fabricatedMetrics vals ts ≠ [] →
        (validate_metrics vals ts).checks =
          [{ name := (r"metrics_in_transcript"), passed := false,
             severity := Severity.WARNING,
             message := some (metricsMsg (fabricatedMetrics vals ts)) }])) ∧
    (validate_metrics [sl (r"Achieved 50% reduction")]
        (sl (r"We achieved a 50 percent reduction in deployment time"))).status =
      Severity.PASS := by
  constructor
  · intro vals ts
    have h1 : ∀ m ∈ foundMetrics (joinSp vals),
        (m ∈ fabricatedMetrics vals ts ↔
          (pyIn m ts = false ∧ ∀ chunk ∈ pyWords ts,
            ¬ mkRat 85 1 < bestAlignSim (normMetric m) chunk)) := by
      intro m hm
      simp [fabricatedMetrics, List.mem_filter, hm, List.any_eq_true]
    refine ⟨?_, ?_, ?_, ?_, ?_⟩
    · by_cases h : (fabricatedMetrics vals ts).isEmpty = false
      · left; simp [validate_metrics, h]
      · right; simp [validate_metrics, h]
    · constructor
      · intro hp
        by_cases h : (fabricatedMetrics vals ts).isEmpty = false
        · simp [validate_metrics, h] at hp
        · exact List.isEmpty_iff.mp (by simpa using h)
      · intro hf
        simp [validate_metrics, hf]
    · intro m hm
      constructor
      · intro hnot
        by_cases hp : pyIn m ts = true
        · exact Or.inl hp
        · right
          by_contra hnc
          push_neg at hnc
          exact hnot ((h1 m hm).mpr
            ⟨by simpa using hp, fun chunk hch => not_lt.mpr (hnc chunk hch)⟩)
      · intro hor hmem
        rcases (h1 m hm).mp hmem with ⟨hfalse, hall⟩
        rcases hor with hp | ⟨chunk, hch, hsim⟩
        · rw [hp] at hfalse; cases hfalse
        · exact (hall chunk hch) hsim
    · intro hf
      simp [validate_metrics, hf]
    · intro hne
      have h : (fabricatedMetrics vals ts).isEmpty = false := by
        simpa [List.isEmpty_iff] using hne
      simp [validate_metrics, h]
  · decide

/-- Witness for the amended C4: the 50-percent metric is classified
non-fabricated through the strict fuzzy test, and the similarity-85 boundary
input yields the single failed WARNING check with the first-five message. -/
theorem C4_metrics_amended_witness :
    ¬ (sl (r"50%")) ∈ fabricatedMetrics [sl (r"Achieved 50% reduction")]
        (sl (r"We achieved a 50 percent reduction in deployment time")) ∧
    (validate_metrics [simBoundaryGen] simBoundaryTr).checks =
      [{ name := (r"metrics_in_transcript"), passed := false,
         severity := Severity.WARNING,
         message := some (metricsMsg (fabricatedMetrics [simBoundaryGen] simBoundaryTr)) }] := by
  constructor
  · exact ((C4_metrics_amended.1 [sl (r"Achieved 50% reduction")]
        (sl (r"We achieved a 50 percent reduction in deployment time"))).2.2.1
        (sl (r"50%")) (by decide)).mpr
      (Or.inr ⟨sl (r"50"), by decide, by decide⟩)
  · exact (C4_metrics_amended.1 [simBoundaryGen] simBoundaryTr).2.2.2.2 (by decide)

/-- Claim C8: when the case-study file cannot be read (the open call raises
FileNotFoundError, modelled by `none`), the validator returns CRITICAL with
exactly one check, file_exists, failed at CRITICAL, and nothing else; the
embedding is total, so no exception escapes. -/
theorem C8_file_missing :
    ∀ path : List Char,
      validate_case_study_format path none =
        { status := Severity.CRITICAL,
          checks := [{ name := (r"file_exists"),
                       passed := false,
                       severity := Severity.CRITICAL,
                       message := some (sl (r"Case study file not found: ") ++ path) }] } := by
  intro path
  rfl

/-- Claim C10: timestamps extracted by the pattern only capture digit strings,
so every extracted timestamp is non-negative, and whenever the
valid_timestamps check is emitted it is a passing check (its CRITICAL failure
branch is unreachable). -/
theorem C10_timestamps :
    (∀ (content : List Char), ∀ v ∈ extractTs content, 0 ≤ v) ∧
    (∀ (path content : List Char),
      ∀ c ∈ (validate_case_study_format path (some content)).checks,
        c.name = (r"valid_timestamps") → c.passed = true) := by
  have hcast : ∀ (l : List Nat), ∀ v ∈ l.map Int.ofNat, 0 ≤ v := by
    intro l
    induction l with
    | nil => intro v hv; cases hv
    | cons a t ih =>
      intro v hv
      rw [List.map_cons] at hv
      rcases List.mem_cons.mp hv with rfl | h
      · exact Int.ofNat_nonneg a
      · exact ih v h
  have hnn : ∀ (content : List Char), ∀ v ∈ extractTs content, 0 ≤ v := by
    intro content v hv
    exact hcast (scanTs (content.length + 1) content) v hv
  refine ⟨hnn, ?_⟩
  intro path content c hc hname
  have hall : (extractTs content).all (fun v => decide (0 ≤ v)) = true := by
    rw [List.all_eq_true]
    intro v hv
    simpa using hnn content v hv
  simp only [validate_case_study_format, hall, if_true, List.mem_cons] at hc
  rcases hc with rfl | rfl | rfl | hc4
  · simp at hname
  · split_ifs at hname <;> simp_all
  · split_ifs at hname <;> simp_all
  · split_ifs at hc4 with h
    · simp only [List.mem_singleton] at hc4
      subst hc4
      rfl
    · cases hc4

/-- Witness for C10: on concrete content with one clickable screenshot at
timestamp 42, the extracted timestamp is non-negative and the emitted
valid_timestamps check passed. -/
theorem C10_timestamps_witness :
    0 ≤ (extractTs demoContent).getD 0 0 ∧
    ((validate_case_study_format (sl (r"cs.md")) (some demoContent)).checks.getD 3
        default).passed = true := by
  constructor
  · exact C10_timestamps.1 demoContent ((extractTs demoContent).getD 0 0) (by decide)
  · exact C10_timestamps.2 (sl (r"cs.md")) demoContent
      ((validate_case_study_format (sl (r"cs.md")) (some demoContent)).checks.getD 3 default)
      (by decide) (by decide)

/-- Claim C9: the overall quality score of `validate_presenter_profile` is the
sum of the five factor scores each weighted 0.2; every factor and the overall
score lie in the unit interval; the overall_quality check passes iff the score
reaches the caller-supplied threshold (default 0.60) and its severity is
CRITICAL below the threshold. -/
theorem C9_profile_scoring :
    (∀ (p : ProfileData) (threshold : ℚ),
      overallScore p =
        mkRat 1 5 * structureScore p + mkRat 1 5 * bioScore p + mkRat 1 5 * talkScore p +
          mkRat 1 5 * expertiseScore p + mkRat 1 5 * consistencyScore p ∧
      (0 ≤ structureScore p ∧ structureScore p ≤ 1) ∧
      (0 ≤ bioScore p ∧ bioScore p ≤ 1) ∧
      (0 ≤ talkScore p ∧ talkScore p ≤ 1) ∧
      (0 ≤ expertiseScore p ∧ expertiseScore p ≤ 1) ∧
      (0 ≤ consistencyScore p ∧ consistencyScore p ≤ 1) ∧
      (0 ≤ overallScore p ∧ overallScore p ≤ 1) ∧
      (((validate_presenter_profile p threshold).checks.getD 5 default).passed = true ↔
        threshold ≤ overallScore p) ∧
      ((validate_presenter_profile p threshold).checks.getD 5 default).severity =
        (if overallScore p < threshold then Severity.CRITICAL
         else if overallScore p < mkRat 7 10 then Severity.WARNING
         else Severity.PASS)) ∧
    (∀ p : ProfileData, validate_presenter_profileDefault p = validate_presenter_profile p (mkRat 3 5)) := by
  have hqmin1 : ∀ x : ℚ, qmin x 1 ≤ 1 := by
    intro x
    unfold qmin
    split_ifs with h
    · exact h
    · norm_num
  have hqmin0 : ∀ x : ℚ, 0 ≤ x → 0 ≤ qmin x 1 := by
    intro x hx
    unfold qmin
    split_ifs
    · exact hx
    · norm_num
  have hmk0 : ∀ (n d : Nat), (0 : ℚ) ≤ mkRat n d := by
    intro n d
    rw [Rat.mkRat_eq_div]
    positivity
  constructor
  · intro p threshold
    have hp5 : presentSections p ≤ 5 := by
      have := List.length_filter_le (fun s => !s.isEmpty)
        [p.overview, p.expertise, p.talk_highlights, p.key_themes, p.stats_table]
      simpa using this
    have hs0 : 0 ≤ structureScore p := hmk0 _ _
    have hs1 : structureScore p ≤ 1 := by
      unfold structureScore
      rw [Rat.mkRat_eq_div, div_le_one (by norm_num)]
      exact_mod_cast hp5
    have hb0 : 0 ≤ bioScore p := hqmin0 _ (hmk0 _ _)
    have hb1 : bioScore p ≤ 1 := hqmin1 _
    have ht0 : 0 ≤ talkScore p := hqmin0 _ (hmk0 _ _)
    have ht1 : talkScore p ≤ 1 := hqmin1 _
    have he0 : 0 ≤ expertiseScore p := hqmin0 _ (hmk0 _ _)
    have he1 : expertiseScore p ≤ 1 := hqmin1 _
    have hc0 : 0 ≤ consistencyScore p := by
      unfold consistencyScore
      split_ifs <;> norm_num
    have hc1 : consistencyScore p ≤ 1 := by
      unfold consistencyScore
      split_ifs <;> norm_num
    have h15 : (mkRat 1 5 : ℚ) = 1 / 5 := by
      rw [Rat.mkRat_eq_div]
      norm_num
    have hov0 : 0 ≤ overallScore p := by
      unfold overallScore
      rw [h15]
      linarith
    have hov1 : overallScore p ≤ 1 := by
      unfold overallScore
      rw [h15]
      linarith
    refine ⟨rfl, ⟨hs0, hs1⟩, ⟨hb0, hb1⟩, ⟨ht0, ht1⟩, ⟨he0, he1⟩, ⟨hc0, hc1⟩,
      ⟨hov0, hov1⟩, ?_, ?_⟩
    · simp [validate_presenter_profile, List.getD]
    · rfl
  · intro p
    rfl

/-- Claim C1: every validator of the validation module satisfies the
escalation invariant — the returned status is CRITICAL iff some emitted check
has passed false and severity CRITICAL, otherwise WARNING iff some emitted
check has passed false and severity WARNING, otherwise PASS (so the status is
never INFO and failed INFO checks never raise it). -/
theorem C1_escalation_invariant :
    (∀ (t : List Char) (segs : List Segment), EscalationSpec (validate_transcript t segs)) ∧
    (∀ (nm title : List Char) (conf : ℚ), EscalationSpec (validate_company_name nm title conf)) ∧
    (∀ a : AnalysisData, EscalationSpec (validate_analysis a)) ∧
    (∀ (vals : List (List Char)) (ts : List Char), EscalationSpec (validate_metrics vals ts)) ∧
    (∀ (path : List Char) (content? : Option (List Char)),
      EscalationSpec (validate_case_study_format path content?)) ∧
    (∀ (e : List Char) (secs : List (List Char)),
      EscalationSpec (validate_company_consistency e secs)) ∧
    (∀ (nm : List Char) (vd : VideosData), EscalationSpec (validate_presenter nm vd)) ∧
    (∀ b : BiographyData, EscalationSpec (validate_biography b)) ∧
    (∀ (ep : ProfileMeta) (nv : VideosData), EscalationSpec (validate_profile_update ep nv)) ∧
    (∀ (p : ProfileData) (th : ℚ), EscalationSpec (validate_presenter_profile p th)) := by
  refine ⟨?_, ?_, ?_, ?_, ?_, ?_, ?_, ?_, ?_, ?_⟩
  · intro t segs
    exact escalation_of_aggLoop _
  · intro nm title conf
    exact escalation_of_aggNB _
  · intro a
    exact escalation_of_aggLoop _
  · intro vals ts
    by_cases h : (fabricatedMetrics vals ts).isEmpty = false
    · simp [validate_metrics, h, EscalationSpec]
    · simp [validate_metrics, h, EscalationSpec]
  · intro path content?
    cases content? with
    | none =>
      exact escalation_of_critFailure _ ⟨_, List.mem_singleton_self _, rfl, rfl⟩
    | some content =>
      exact escalation_of_aggLoop _
  · intro e secs
    exact escalation_of_aggLoop _
  · intro nm vd
    simp only [validate_presenter]
    by_cases h : (List.filter (fun v => v.success) vd.videos).isEmpty = true
    · rw [if_pos h]
      apply escalation_of_critFailure
      rw [List.isEmpty_iff.mp h]
      simp
    · rw [if_neg h]
      exact escalation_of_aggLoop _
  · intro b
    exact escalation_of_aggLoop _
  · intro ep nv
    simp only [validate_profile_update]
    by_cases h : (List.filter (fun v => v.success) nv.videos).isEmpty = true
    · rw [if_pos h]
      apply escalation_of_critFailure
      rw [List.isEmpty_iff.mp h]
      simp
    · rw [if_neg h]
      exact escalation_of_aggLoop _
  · intro p th
    exact escalation_of_aggLoop _

end CaseStudyPilot
